import Mathlib

/-!
Verification development for the GoHighLevel MCP server's Tool Registry and
Dispatch Router (src/http-server.ts, src/server.ts, src/handlers/describe.ts).

The embedding is shallow: the static per-group tool-name lists, the
name-to-group routing chains of both transports, the category classifier,
the describe endpoints and the invocation dispatch (argument defaulting,
result envelope, error translation) are translated into executable Lean
definitions, and the stated properties are proved or refuted about them.
Capability-group behaviour (the backend REST calls) is opaque in the source
and is therefore a parameter (`ExecBehavior`) here.
-/

namespace GHLMCP

/-- Does the character list start with the given pattern?  Building block for
`strContains`; structural so the kernel can evaluate it. -/
def charListStartsWith : List Char → List Char → Bool
  | [], _ => true
  | _ :: _, [] => false
  | p :: ps, c :: cs => p == c && charListStartsWith ps cs

/-- Does the pattern occur as a contiguous run inside the character list? -/
def charListHolds (pat : List Char) : List Char → Bool
  | [] => pat.isEmpty
  | c :: cs => charListStartsWith pat (c :: cs) || charListHolds pat cs

/-- Model of JavaScript `String.prototype.includes`: `strContains s pat` is
true when `pat` occurs as a substring of `s` (true for the empty pattern,
matching JS). -/
def strContains (s pat : String) : Bool := charListHolds pat.data s.data

/-- Model of JavaScript `String.prototype.toLowerCase` (character-wise
lowering; adequate for the ASCII tool names of this system). -/
def jsToLower (s : String) : String := String.mk (s.data.map Char.toLower)

/-- JSON values, as produced by a capability group's `executeTool` and fed to
`JSON.stringify`.  Objects are ordered association lists, preserving the
insertion key order that `JSON.stringify` serializes. -/
inductive JSVal where
  | null
  | bool (b : Bool)
  | num (n : Int)
  | str (s : String)
  | arr (xs : List JSVal)
  | obj (fields : List (String × JSVal))

/-- A JSON object: the `arguments` mapping of an invocation. -/
abbrev JSObj := List (String × JSVal)

/-- Indentation of `n` spaces, as produced by `JSON.stringify(_, null, 2)`. -/
def spaces (n : Nat) : String := String.mk (List.replicate n ' ')

/-- JSON string escaping for one character (quote, backslash and the common
control characters; other characters pass through, as they do for the ASCII
payloads of this system). -/
def escChar (c : Char) : String :=
  if c.toNat == 34 then "\\\""
  else if c.toNat == 92 then "\\\\"
  else if c.toNat == 10 then "\\n"
  else if c.toNat == 9 then "\\t"
  else if c.toNat == 13 then "\\r"
  else String.singleton c

/-- JSON string escaping. -/
def escString (s : String) : String := String.join (s.data.map escChar)

mutual
/-- Serialization of one JSON value at indentation `ind`, modelling
`JSON.stringify(v, null, 2)`: objects keep their own key order, arrays keep
element order, nesting indents by two spaces. -/
def stringifyVal (ind : Nat) : JSVal → String
  | .null => "null"
  | .bool b => if b then "true" else "false"
  | .num n => toString n
  | .str s => "\"" ++ escString s ++ "\""
  | .arr xs =>
      if xs.isEmpty then "[]"
      else "[\n" ++ stringifyItems (ind + 2) xs ++ "\n" ++ spaces ind ++ "]"
  | .obj fs =>
      if fs.isEmpty then "\x7b\x7d"
      else "\x7b\n" ++ stringifyFields (ind + 2) fs ++ "\n" ++ spaces ind ++ "\x7d"
/-- Serialization of the elements of a JSON array, one per line. -/
def stringifyItems (ind : Nat) : List JSVal → String
  | [] => ""
  | [x] => spaces ind ++ stringifyVal ind x
  | x :: y :: xs =>
      spaces ind ++ stringifyVal ind x ++ ",\n" ++ stringifyItems ind (y :: xs)
/-- Serialization of the fields of a JSON object, in key order, one per line. -/
def stringifyFields (ind : Nat) : List (String × JSVal) → String
  | [] => ""
  | [(k, v)] => spaces ind ++ "\"" ++ escString k ++ "\": " ++ stringifyVal ind v
  | (k, v) :: f :: fs =>
      spaces ind ++ "\"" ++ escString k ++ "\": " ++ stringifyVal ind v ++ ",\n"
        ++ stringifyFields ind (f :: fs)
end

/-- Model of `JSON.stringify(result, null, 2)` as used by both transports when
wrapping a successful tool result.  A Lean function, hence deterministic, and
object key order is the payload's own order. -/
def jsonStringify (v : JSVal) : String := stringifyVal 0 v

/-- The argument schema of a tool: a JSON-Schema-like record.  `properties`
is optional (its presence is tested by the example generator); `required`
lists the mandatory field names (`inputSchema.required || []` in the source
collapses an absent list to `[]`, which the embedding does eagerly). -/
structure InputSchema where
  properties : Option (List (String × String))
  required : List String
deriving DecidableEq, Repr

/-- One advertised tool: name, human description and argument schema
(`ToolDefinition` in src/handlers/describe.ts). -/
structure ToolDefinition where
  name : String
  description : String
  inputSchema : InputSchema
deriving DecidableEq, Repr

/-- The 19 capability groups, in the registration order both entry points
use (field order of `GHLMCPServer` / `GHLMCPHttpServer`). -/
inductive GroupId where
  | contact | conversation | blog | opportunity | calendar | email | location
  | emailISV | socialMedia | media | object | association | customFieldV2
  | workflow | survey | store | products | payments | invoices
deriving DecidableEq, Repr

-- Per-group static tool-name lists from http-server.ts (isContactTool .. isInvoicesTool, lines 623-809).
/-- Tool names of the Contact group as listed in http-server.ts isContactTool. -/
def httpContactToolNames : List String :=
  [
    "create_contact",
    "search_contacts",
    "get_contact",
    "update_contact",
    "add_contact_tags",
    "remove_contact_tags",
    "delete_contact",
    "get_contact_tasks",
    "create_contact_task",
    "get_contact_task",
    "update_contact_task",
    "delete_contact_task",
    "update_task_completion",
    "get_contact_notes",
    "create_contact_note",
    "get_contact_note",
    "update_contact_note",
    "delete_contact_note",
    "upsert_contact",
    "get_duplicate_contact",
    "get_contacts_by_business",
    "get_contact_appointments",
    "bulk_update_contact_tags",
    "bulk_update_contact_business",
    "add_contact_followers",
    "remove_contact_followers",
    "add_contact_to_campaign",
    "remove_contact_from_campaign",
    "remove_contact_from_all_campaigns",
    "add_contact_to_workflow",
    "remove_contact_from_workflow"
  ]
/-- Tool names of the Conversation group as listed in http-server.ts isConversationTool. -/
def httpConversationToolNames : List String :=
  [
    "send_sms",
    "send_email",
    "search_conversations",
    "get_conversation",
    "create_conversation",
    "update_conversation",
    "delete_conversation",
    "get_recent_messages",
    "get_email_message",
    "get_message",
    "upload_message_attachments",
    "update_message_status",
    "add_inbound_message",
    "add_outbound_call",
    "get_message_recording",
    "get_message_transcription",
    "download_transcription",
    "cancel_scheduled_message",
    "cancel_scheduled_email",
    "live_chat_typing"
  ]
/-- Tool names of the Blog group as listed in http-server.ts isBlogTool. -/
def httpBlogToolNames : List String :=
  [
    "create_blog_post",
    "update_blog_post",
    "get_blog_posts",
    "get_blog_sites",
    "get_blog_authors",
    "get_blog_categories",
    "check_url_slug"
  ]
/-- Tool names of the Opportunity group as listed in http-server.ts isOpportunityTool. -/
def httpOpportunityToolNames : List String :=
  [
    "search_opportunities",
    "get_pipelines",
    "get_opportunity",
    "create_opportunity",
    "update_opportunity_status",
    "delete_opportunity",
    "update_opportunity",
    "upsert_opportunity",
    "add_opportunity_followers",
    "remove_opportunity_followers"
  ]
/-- Tool names of the Calendar group as listed in http-server.ts isCalendarTool. -/
def httpCalendarToolNames : List String :=
  [
    "get_calendar_groups",
    "get_calendars",
    "create_calendar",
    "get_calendar",
    "update_calendar",
    "delete_calendar",
    "get_calendar_events",
    "get_free_slots",
    "create_appointment",
    "get_appointment",
    "update_appointment",
    "delete_appointment",
    "create_block_slot",
    "update_block_slot"
  ]
/-- Tool names of the Email group as listed in http-server.ts isEmailTool. -/
def httpEmailToolNames : List String :=
  [
    "get_email_campaigns",
    "create_email_template",
    "get_email_templates",
    "update_email_template",
    "delete_email_template"
  ]
/-- Tool names of the Location group as listed in http-server.ts isLocationTool. -/
def httpLocationToolNames : List String :=
  [
    "search_locations",
    "get_location",
    "create_location",
    "update_location",
    "delete_location",
    "get_location_tags",
    "create_location_tag",
    "get_location_tag",
    "update_location_tag",
    "delete_location_tag",
    "search_location_tasks",
    "get_location_custom_fields",
    "create_location_custom_field",
    "get_location_custom_field",
    "update_location_custom_field",
    "delete_location_custom_field",
    "get_location_custom_values",
    "create_location_custom_value",
    "get_location_custom_value",
    "update_location_custom_value",
    "delete_location_custom_value",
    "get_location_templates",
    "delete_location_template",
    "get_timezones"
  ]
/-- Tool names of the EmailISV group: http-server.ts isEmailISVTool tests
equality with the single name "verify_email", embedded as a one-element list. -/
def httpEmailISVToolNames : List String :=
  [
    "verify_email"
  ]
/-- Tool names of the SocialMedia group as listed in http-server.ts isSocialMediaTool. -/
def httpSocialMediaToolNames : List String :=
  [
    "search_social_posts",
    "create_social_post",
    "get_social_post",
    "update_social_post",
    "delete_social_post",
    "bulk_delete_social_posts",
    "get_social_accounts",
    "delete_social_account",
    "upload_social_csv",
    "get_csv_upload_status",
    "set_csv_accounts",
    "get_social_categories",
    "get_social_category",
    "get_social_tags",
    "get_social_tags_by_ids",
    "start_social_oauth",
    "get_platform_accounts"
  ]
/-- Tool names of the Media group as listed in http-server.ts isMediaTool. -/
def httpMediaToolNames : List String :=
  [
    "get_media_files",
    "upload_media_file",
    "delete_media_file"
  ]
/-- Tool names of the Object group as listed in http-server.ts isObjectTool. -/
def httpObjectToolNames : List String :=
  [
    "get_all_objects",
    "create_object_schema",
    "get_object_schema",
    "update_object_schema",
    "create_object_record",
    "get_object_record",
    "update_object_record",
    "delete_object_record",
    "search_object_records"
  ]
/-- Tool names of the Association group as listed in http-server.ts isAssociationTool. -/
def httpAssociationToolNames : List String :=
  [
    "ghl_get_all_associations",
    "ghl_create_association",
    "ghl_get_association_by_id",
    "ghl_update_association",
    "ghl_delete_association",
    "ghl_get_association_by_key",
    "ghl_get_association_by_object_key",
    "ghl_create_relation",
    "ghl_get_relations_by_record",
    "ghl_delete_relation"
  ]
/-- Tool names of the CustomFieldV2 group as listed in http-server.ts isCustomFieldV2Tool. -/
def httpCustomFieldV2ToolNames : List String :=
  [
    "ghl_get_custom_field_by_id",
    "ghl_create_custom_field",
    "ghl_update_custom_field",
    "ghl_delete_custom_field",
    "ghl_get_custom_fields_by_object_key",
    "ghl_create_custom_field_folder",
    "ghl_update_custom_field_folder",
    "ghl_delete_custom_field_folder"
  ]
/-- Tool names of the Workflow group: http-server.ts isWorkflowTool tests
equality with the single name "ghl_get_workflows", embedded as a one-element list. -/
def httpWorkflowToolNames : List String :=
  [
    "ghl_get_workflows"
  ]
/-- Tool names of the Survey group as listed in http-server.ts isSurveyTool. -/
def httpSurveyToolNames : List String :=
  [
    "ghl_get_surveys",
    "ghl_get_survey_submissions"
  ]
/-- Tool names of the Store group as listed in http-server.ts isStoreTool. -/
def httpStoreToolNames : List String :=
  [
    "ghl_create_shipping_zone",
    "ghl_list_shipping_zones",
    "ghl_get_shipping_zone",
    "ghl_update_shipping_zone",
    "ghl_delete_shipping_zone",
    "ghl_get_available_shipping_rates",
    "ghl_create_shipping_rate",
    "ghl_list_shipping_rates",
    "ghl_get_shipping_rate",
    "ghl_update_shipping_rate",
    "ghl_delete_shipping_rate",
    "ghl_create_shipping_carrier",
    "ghl_list_shipping_carriers",
    "ghl_get_shipping_carrier",
    "ghl_update_shipping_carrier",
    "ghl_delete_shipping_carrier",
    "ghl_create_store_setting",
    "ghl_get_store_setting"
  ]
/-- Tool names of the Products group as listed in http-server.ts isProductsTool. -/
def httpProductsToolNames : List String :=
  [
    "ghl_create_product",
    "ghl_list_products",
    "ghl_get_product",
    "ghl_update_product",
    "ghl_delete_product",
    "ghl_create_price",
    "ghl_list_prices",
    "ghl_list_inventory",
    "ghl_create_product_collection",
    "ghl_list_product_collections"
  ]
/-- Tool names of the Payments group as listed in http-server.ts isPaymentsTool. -/
def httpPaymentsToolNames : List String :=
  [
    "create_whitelabel_integration_provider",
    "list_whitelabel_integration_providers",
    "list_orders",
    "get_order_by_id",
    "create_order_fulfillment",
    "list_order_fulfillments",
    "list_transactions",
    "get_transaction_by_id",
    "list_subscriptions",
    "get_subscription_by_id",
    "list_coupons",
    "create_coupon",
    "update_coupon",
    "delete_coupon",
    "get_coupon",
    "create_custom_provider_integration",
    "delete_custom_provider_integration",
    "get_custom_provider_config",
    "create_custom_provider_config",
    "disconnect_custom_provider_config"
  ]
/-- Tool names of the Invoices group as listed in http-server.ts isInvoicesTool. -/
def httpInvoicesToolNames : List String :=
  [
    "create_invoice_template",
    "list_invoice_templates",
    "get_invoice_template",
    "update_invoice_template",
    "delete_invoice_template",
    "update_invoice_template_late_fees",
    "update_invoice_template_payment_methods",
    "create_invoice_schedule",
    "list_invoice_schedules",
    "get_invoice_schedule",
    "update_invoice_schedule",
    "delete_invoice_schedule",
    "schedule_invoice_schedule",
    "auto_payment_invoice_schedule",
    "cancel_invoice_schedule",
    "create_invoice",
    "list_invoices",
    "get_invoice",
    "update_invoice",
    "delete_invoice",
    "void_invoice",
    "send_invoice",
    "record_invoice_payment",
    "generate_invoice_number",
    "text2pay_invoice",
    "update_invoice_last_visited",
    "create_estimate",
    "list_estimates",
    "update_estimate",
    "delete_estimate",
    "send_estimate",
    "create_invoice_from_estimate",
    "generate_estimate_number",
    "update_estimate_last_visited",
    "list_estimate_templates",
    "create_estimate_template",
    "update_estimate_template",
    "delete_estimate_template",
    "preview_estimate_template"
  ]

-- Per-group static tool-name lists from server.ts (isContactTool .. isInvoicesTool, lines 193-267).
/-- Tool names of the Contact group as listed in server.ts isContactTool. -/
def stdioContactToolNames : List String :=
  [
    "create_contact",
    "search_contacts",
    "get_contact",
    "update_contact",
    "add_contact_tags",
    "remove_contact_tags",
    "delete_contact",
    "get_contact_tasks",
    "create_contact_task",
    "get_contact_task",
    "update_contact_task",
    "delete_contact_task",
    "update_task_completion",
    "get_contact_notes",
    "create_contact_note",
    "get_contact_note",
    "update_contact_note",
    "delete_contact_note",
    "upsert_contact",
    "get_duplicate_contact",
    "get_contacts_by_business",
    "get_contact_appointments",
    "bulk_update_contact_tags",
    "bulk_update_contact_business",
    "add_contact_followers",
    "remove_contact_followers",
    "add_contact_to_campaign",
    "remove_contact_from_campaign",
    "remove_contact_from_all_campaigns",
    "add_contact_to_workflow",
    "remove_contact_from_workflow"
  ]
/-- Tool names of the Conversation group as listed in server.ts isConversationTool. -/
def stdioConversationToolNames : List String :=
  [
    "send_sms",
    "send_email",
    "search_conversations",
    "get_conversation",
    "create_conversation",
    "update_conversation",
    "delete_conversation",
    "get_recent_messages",
    "get_email_message",
    "get_message",
    "upload_message_attachments",
    "update_message_status",
    "add_inbound_message",
    "add_outbound_call",
    "get_message_recording",
    "get_message_transcription",
    "download_transcription",
    "cancel_scheduled_message",
    "cancel_scheduled_email",
    "live_chat_typing"
  ]
/-- Tool names of the Blog group as listed in server.ts isBlogTool. -/
def stdioBlogToolNames : List String :=
  [
    "create_blog_post",
    "update_blog_post",
    "get_blog_posts",
    "get_blog_sites",
    "get_blog_authors",
    "get_blog_categories",
    "check_url_slug"
  ]
/-- Tool names of the Opportunity group as listed in server.ts isOpportunityTool. -/
def stdioOpportunityToolNames : List String :=
  [
    "search_opportunities",
    "get_pipelines",
    "get_opportunity",
    "create_opportunity",
    "update_opportunity_status",
    "delete_opportunity",
    "update_opportunity",
    "upsert_opportunity",
    "add_opportunity_followers",
    "remove_opportunity_followers"
  ]
/-- Tool names of the Calendar group as listed in server.ts isCalendarTool. -/
def stdioCalendarToolNames : List String :=
  [
    "get_calendar_groups",
    "get_calendars",
    "create_calendar",
    "get_calendar",
    "update_calendar",
    "delete_calendar",
    "get_calendar_events",
    "get_free_slots",
    "create_appointment",
    "get_appointment",
    "update_appointment",
    "delete_appointment",
    "create_block_slot",
    "update_block_slot"
  ]
/-- Tool names of the Email group as listed in server.ts isEmailTool. -/
def stdioEmailToolNames : List String :=
  [
    "get_email_campaigns",
    "create_email_template",
    "get_email_templates",
    "update_email_template",
    "delete_email_template"
  ]
/-- Tool names of the Location group as listed in server.ts isLocationTool. -/
def stdioLocationToolNames : List String :=
  [
    "search_locations",
    "get_location",
    "create_location",
    "update_location",
    "delete_location",
    "get_location_tags",
    "create_location_tag",
    "get_location_tag",
    "update_location_tag",
    "delete_location_tag",
    "search_location_tasks",
    "get_location_custom_fields",
    "create_location_custom_field",
    "get_location_custom_field",
    "update_location_custom_field",
    "delete_location_custom_field",
    "get_location_custom_values",
    "create_location_custom_value",
    "get_location_custom_value",
    "update_location_custom_value",
    "delete_location_custom_value",
    "get_location_templates",
    "delete_location_template",
    "get_timezones"
  ]
/-- Tool names of the EmailISV group: server.ts isEmailISVTool tests equality
with the single name "verify_email", embedded as a one-element list. -/
def stdioEmailISVToolNames : List String :=
  [
    "verify_email"
  ]
/-- Tool names of the SocialMedia group as listed in server.ts isSocialMediaTool. -/
def stdioSocialMediaToolNames : List String :=
  [
    "search_social_posts",
    "create_social_post",
    "get_social_post",
    "update_social_post",
    "delete_social_post",
    "bulk_delete_social_posts",
    "get_social_accounts",
    "delete_social_account",
    "upload_social_csv",
    "get_csv_upload_status",
    "set_csv_accounts",
    "get_social_categories",
    "get_social_category",
    "get_social_tags",
    "get_social_tags_by_ids",
    "start_social_oauth",
    "get_platform_accounts"
  ]
/-- Tool names of the Media group as listed in server.ts isMediaTool. -/
def stdioMediaToolNames : List String :=
  [
    "get_media_files",
    "upload_media_file",
    "delete_media_file"
  ]
/-- Tool names of the Object group as listed in server.ts isObjectTool. -/
def stdioObjectToolNames : List String :=
  [
    "get_all_objects",
    "create_object_schema",
    "get_object_schema",
    "update_object_schema",
    "create_object_record",
    "get_object_record",
    "update_object_record",
    "delete_object_record",
    "search_object_records"
  ]
/-- Tool names of the Association group as listed in server.ts isAssociationTool. -/
def stdioAssociationToolNames : List String :=
  [
    "ghl_get_all_associations",
    "ghl_create_association",
    "ghl_get_association_by_id",
    "ghl_update_association",
    "ghl_delete_association",
    "ghl_get_association_by_key",
    "ghl_get_association_by_object_key",
    "ghl_create_relation",
    "ghl_get_relations_by_record",
    "ghl_delete_relation"
  ]
/-- Tool names of the CustomFieldV2 group as listed in server.ts isCustomFieldV2Tool. -/
def stdioCustomFieldV2ToolNames : List String :=
  [
    "ghl_get_custom_field_by_id",
    "ghl_create_custom_field",
    "ghl_update_custom_field",
    "ghl_delete_custom_field",
    "ghl_get_custom_fields_by_object_key",
    "ghl_create_custom_field_folder",
    "ghl_update_custom_field_folder",
    "ghl_delete_custom_field_folder"
  ]
/-- Tool names of the Workflow group: server.ts isWorkflowTool tests equality
with the single name "ghl_get_workflows", embedded as a one-element list. -/
def stdioWorkflowToolNames : List String :=
  [
    "ghl_get_workflows"
  ]
/-- Tool names of the Survey group as listed in server.ts isSurveyTool. -/
def stdioSurveyToolNames : List String :=
  [
    "ghl_get_surveys",
    "ghl_get_survey_submissions"
  ]
/-- Tool names of the Store group as listed in server.ts isStoreTool. -/
def stdioStoreToolNames : List String :=
  [
    "ghl_create_shipping_zone",
    "ghl_list_shipping_zones",
    "ghl_get_shipping_zone",
    "ghl_update_shipping_zone",
    "ghl_delete_shipping_zone",
    "ghl_get_available_shipping_rates",
    "ghl_create_shipping_rate",
    "ghl_list_shipping_rates",
    "ghl_get_shipping_rate",
    "ghl_update_shipping_rate",
    "ghl_delete_shipping_rate",
    "ghl_create_shipping_carrier",
    "ghl_list_shipping_carriers",
    "ghl_get_shipping_carrier",
    "ghl_update_shipping_carrier",
    "ghl_delete_shipping_carrier",
    "ghl_create_store_setting",
    "ghl_get_store_setting"
  ]
/-- Tool names of the Products group as listed in server.ts isProductsTool. -/
def stdioProductsToolNames : List String :=
  [
    "ghl_create_product",
    "ghl_list_products",
    "ghl_get_product",
    "ghl_update_product",
    "ghl_delete_product",
    "ghl_create_price",
    "ghl_list_prices",
    "ghl_list_inventory",
    "ghl_create_product_collection",
    "ghl_list_product_collections"
  ]
/-- Tool names of the Payments group as listed in server.ts isPaymentsTool. -/
def stdioPaymentsToolNames : List String :=
  [
    "create_whitelabel_integration_provider",
    "list_whitelabel_integration_providers",
    "list_orders",
    "get_order_by_id",
    "create_order_fulfillment",
    "list_order_fulfillments",
    "list_transactions",
    "get_transaction_by_id",
    "list_subscriptions",
    "get_subscription_by_id",
    "list_coupons",
    "create_coupon",
    "update_coupon",
    "delete_coupon",
    "get_coupon",
    "create_custom_provider_integration",
    "delete_custom_provider_integration",
    "get_custom_provider_config",
    "create_custom_provider_config",
    "disconnect_custom_provider_config"
  ]
/-- Tool names of the Invoices group as listed in server.ts isInvoicesTool. -/
def stdioInvoicesToolNames : List String :=
  [
    "create_invoice_template",
    "list_invoice_templates",
    "get_invoice_template",
    "update_invoice_template",
    "delete_invoice_template",
    "update_invoice_template_late_fees",
    "update_invoice_template_payment_methods",
    "create_invoice_schedule",
    "list_invoice_schedules",
    "get_invoice_schedule",
    "update_invoice_schedule",
    "delete_invoice_schedule",
    "schedule_invoice_schedule",
    "auto_payment_invoice_schedule",
    "cancel_invoice_schedule",
    "create_invoice",
    "list_invoices",
    "get_invoice",
    "update_invoice",
    "delete_invoice",
    "void_invoice",
    "send_invoice",
    "record_invoice_payment",
    "generate_invoice_number",
    "text2pay_invoice",
    "update_invoice_last_visited",
    "create_estimate",
    "list_estimates",
    "update_estimate",
    "delete_estimate",
    "send_estimate",
    "create_invoice_from_estimate",
    "generate_estimate_number",
    "update_estimate_last_visited",
    "list_estimate_templates",
    "create_estimate_template",
    "update_estimate_template",
    "delete_estimate_template",
    "preview_estimate_template"
  ]

/-- The HTTP transport's name-to-group routing chain: the if/else chain of
`setupMCPHandlers` in http-server.ts (lines 327-367), testing
`isContactTool` .. `isInvoicesTool` in order; `none` is the final
`throw new Error('Unknown tool: ...')` branch. -/
def httpGroupOf (name : String) : Option GroupId :=
  if httpContactToolNames.contains name then some .contact
  else if httpConversationToolNames.contains name then some .conversation
  else if httpBlogToolNames.contains name then some .blog
  else if httpOpportunityToolNames.contains name then some .opportunity
  else if httpCalendarToolNames.contains name then some .calendar
  else if httpEmailToolNames.contains name then some .email
  else if httpLocationToolNames.contains name then some .location
  else if httpEmailISVToolNames.contains name then some .emailISV
  else if httpSocialMediaToolNames.contains name then some .socialMedia
  else if httpMediaToolNames.contains name then some .media
  else if httpObjectToolNames.contains name then some .object
  else if httpAssociationToolNames.contains name then some .association
  else if httpCustomFieldV2ToolNames.contains name then some .customFieldV2
  else if httpWorkflowToolNames.contains name then some .workflow
  else if httpSurveyToolNames.contains name then some .survey
  else if httpStoreToolNames.contains name then some .store
  else if httpProductsToolNames.contains name then some .products
  else if httpPaymentsToolNames.contains name then some .payments
  else if httpInvoicesToolNames.contains name then some .invoices
  else none

/-- The stdio transport's name-to-group routing chain: the if/else chain of
`setupHandlers` in server.ts (lines 144-184), same shape as the HTTP one but
over server.ts's own lists. -/
def stdioGroupOf (name : String) : Option GroupId :=
  if stdioContactToolNames.contains name then some .contact
  else if stdioConversationToolNames.contains name then some .conversation
  else if stdioBlogToolNames.contains name then some .blog
  else if stdioOpportunityToolNames.contains name then some .opportunity
  else if stdioCalendarToolNames.contains name then some .calendar
  else if stdioEmailToolNames.contains name then some .email
  else if stdioLocationToolNames.contains name then some .location
  else if stdioEmailISVToolNames.contains name then some .emailISV
  else if stdioSocialMediaToolNames.contains name then some .socialMedia
  else if stdioMediaToolNames.contains name then some .media
  else if stdioObjectToolNames.contains name then some .object
  else if stdioAssociationToolNames.contains name then some .association
  else if stdioCustomFieldV2ToolNames.contains name then some .customFieldV2
  else if stdioWorkflowToolNames.contains name then some .workflow
  else if stdioSurveyToolNames.contains name then some .survey
  else if stdioStoreToolNames.contains name then some .store
  else if stdioProductsToolNames.contains name then some .products
  else if stdioPaymentsToolNames.contains name then some .payments
  else if stdioInvoicesToolNames.contains name then some .invoices
  else none

/-- Protocol error classes used by the HTTP transport's catch block
(`ErrorCode.InvalidRequest` / `ErrorCode.InternalError` from the MCP SDK). -/
inductive ErrorCode where
  | invalidRequest
  | internalError
deriving DecidableEq, Repr

/-- A structured protocol error (`McpError`): class plus message. -/
structure McpFailure where
  code : ErrorCode
  message : String
deriving Repr

/-- One entry of the result envelope's `content` array. -/
structure ContentItem where
  type : String
  text : String
deriving Repr

/-- The wire-level success envelope
`\x7b content: [ \x7b type: "text", text: ... \x7d ] \x7d` both transports build. -/
structure CallToolResult where
  content : List ContentItem
deriving Repr

/-- The observable behaviour of the 19 capability groups: what
`executeTool` (resp. `handleToolCall` etc.) of each group returns for a name
and an arguments mapping.  The groups' bodies are opaque backend calls in the
source, so dispatch is proved for every behaviour; a thrown error is
`.error msg` with `msg` the error's message. -/
abbrev ExecBehavior := GroupId → String → JSObj → Except String JSVal

/-- Argument defaulting `args || \x7b\x7d`: an absent arguments value becomes the
empty mapping, a present mapping (objects are truthy, even empty) is passed
through, so a handler always receives a concrete mapping. -/
def defaultArgs (args : Option JSObj) : JSObj := args.getD []

/-- The `CallToolRequestSchema` handler of http-server.ts (lines 318-391):
resolve the name through the routing chain, run the owning group's execute
with defaulted arguments, wrap a success verbatim in the text envelope via
`JSON.stringify(result, null, 2)`; any thrown failure is caught and
translated - a message containing "404" becomes an InvalidRequest-class
`McpError`, anything else an InternalError-class one, message
`Tool execution failed: $\x7berror\x7d`.  The unknown-name branch throws
`Error('Unknown tool: ...')` inside the same try, so it reaches the same
catch. -/
def httpDispatch (exec : ExecBehavior) (name : String) (args : Option JSObj) :
    Except McpFailure CallToolResult :=
  match httpGroupOf name with
  | some g =>
      match exec g name (defaultArgs args) with
      | .ok r => .ok ⟨[⟨"text", jsonStringify r⟩]⟩
      | .error msg =>
          .error ⟨if strContains msg "404" then .invalidRequest else .internalError,
                  "Tool execution failed: Error: " ++ msg⟩
  | none =>
      .error ⟨if strContains ("Unknown tool: " ++ name) "404" then .invalidRequest
              else .internalError,
              "Tool execution failed: Error: Unknown tool: " ++ name⟩

/-- What the stdio `CallToolRequestSchema` handler of server.ts
(lines 140-189) produces: either the success envelope, or - the handler has
no try/catch - the thrown error escaping the handler uncaught (`raw`). -/
inductive StdioOutcome where
  | ok (result : CallToolResult)
  | raw (message : String)
deriving Repr

/-- The stdio dispatch of server.ts: same routing chain and success envelope
as HTTP, but failures (including the unknown-name `Error`) propagate out of
the handler untranslated - server.ts performs no error translation. -/
def stdioDispatch (exec : ExecBehavior) (name : String) (args : Option JSObj) :
    StdioOutcome :=
  match stdioGroupOf name with
  | some g =>
      match exec g name (defaultArgs args) with
      | .ok r => .ok ⟨[⟨"text", jsonStringify r⟩]⟩
      | .error msg => .raw msg
  | none => .raw ("Unknown tool: " ++ name)

/-- The per-tool classification step of `categorizeTools` (http-server.ts
lines 250-272 and, verbatim identical, DescribeHandler.categorizeTools in
src/handlers/describe.ts lines 141-163): lower-case the name and test cue
substrings in a fixed if/else order; the bucket of the first match wins. -/
def categoryOf (name : String) : String :=
  let toolName := jsToLower name
  if strContains toolName "contact" then "Contact Management"
  else if strContains toolName "message" || strContains toolName "sms"
      || strContains toolName "email" || strContains toolName "conversation" then
    "Messaging & Communication"
  else if strContains toolName "opportunity" || strContains toolName "pipeline" then
    "Sales & Opportunities"
  else if strContains toolName "calendar" || strContains toolName "appointment"
      || strContains toolName "event" then
    "Calendar & Appointments"
  else if strContains toolName "payment" || strContains toolName "invoice"
      || strContains toolName "billing" || strContains toolName "transaction" then
    "Payments & Billing"
  else if strContains toolName "social" || strContains toolName "blog"
      || strContains toolName "media" || strContains toolName "campaign" then
    "Marketing & Social Media"
  else if strContains toolName "location" || strContains toolName "workflow"
      || strContains toolName "survey" || strContains toolName "store" then
    "Business Operations"
  else if strContains toolName "object" || strContains toolName "custom"
      || strContains toolName "field" || strContains toolName "association" then
    "Custom Objects & Data"
  else "Other"

/-- The nine bucket labels, in the declaration order of the `categories`
record (which `Object.entries` preserves). -/
def categoryLabels : List String :=
  ["Contact Management", "Messaging & Communication", "Sales & Opportunities",
   "Calendar & Appointments", "Payments & Billing", "Marketing & Social Media",
   "Business Operations", "Custom Objects & Data", "Other"]

/-- The names pushed into one bucket by the `tools.forEach` loop: pushing in
iteration order makes the bucket of `label` exactly the names of the tools
classified to `label`, in input order. -/
def bucketNames (tools : List ToolDefinition) (label : String) : List String :=
  (tools.filter (fun t => categoryOf t.name == label)).map (fun t => t.name)

/-- JavaScript `Array.prototype.sort()` on a string array: the (unique)
lexicographically sorted permutation. -/
def sortStrings (l : List String) : List String := List.insertionSort (· ≤ ·) l

/-- One output entry of the classifier: label, member count, sorted members. -/
structure Category where
  name : String
  count : Nat
  tools : List String
deriving DecidableEq, Repr

/-- `categorizeTools` (http-server.ts lines 237-281, identical in
DescribeHandler): bucket every tool, then `Object.entries(categories)
.filter(nonempty).map(\x7bname, count, sorted tools\x7d)`. -/
def categorizeTools (tools : List ToolDefinition) : List Category :=
  ((categoryLabels.map (fun label => (label, bucketNames tools label))).filter
      (fun p => !p.2.isEmpty)).map
    (fun p => ⟨p.1, p.2.length, sortStrings p.2⟩)

/-- `getToolCategory` (http-server.ts lines 609-620), the category function
the `/describe/tool/:toolName` route reports; note its cue sets differ
slightly from the classifier's (no "event", "transaction" or "campaign"). -/
def getToolCategory (toolName : String) : String :=
  let name := jsToLower toolName
  if strContains name "contact" then "Contact Management"
  else if strContains name "message" || strContains name "sms"
      || strContains name "email" || strContains name "conversation" then
    "Messaging & Communication"
  else if strContains name "opportunity" || strContains name "pipeline" then
    "Sales & Opportunities"
  else if strContains name "calendar" || strContains name "appointment" then
    "Calendar & Appointments"
  else if strContains name "payment" || strContains name "invoice"
      || strContains name "billing" then
    "Payments & Billing"
  else if strContains name "social" || strContains name "blog"
      || strContains name "media" then
    "Marketing & Social Media"
  else if strContains name "location" || strContains name "workflow"
      || strContains name "survey" || strContains name "store" then
    "Business Operations"
  else if strContains name "object" || strContains name "custom"
      || strContains name "field" || strContains name "association" then
    "Custom Objects & Data"
  else "Other"

/-- `generateExampleArgs` (http-server.ts lines 595-607): when the schema has
a `properties` object, map each required field to a literal by field-name
heuristic (email-, phone-, id-shaped, else generic).  Present in the source
but never invoked by any route. -/
def generateExampleArgs (tool : ToolDefinition) : List (String × String) :=
  match tool.inputSchema.properties with
  | none => []
  | some _ =>
      tool.inputSchema.required.map (fun field =>
        if strContains field "email" then (field, "user@example.com")
        else if strContains field "phone" then (field, "+1234567890")
        else if strContains field "id" then (field, "example_id_123")
        else (field, "example_value"))

/-- One usage example as returned by the describe-one route:
`\x7b tool: ..., arguments: ... \x7d`. -/
structure ToolExample where
  tool : String
  arguments : List (String × String)
deriving DecidableEq, Repr

/-- The JSON body of a successful `/describe/tool/:toolName` response. -/
structure DescribeToolResponse where
  tool : ToolDefinition
  examples : List ToolExample
  relatedTools : List String
  category : String
deriving DecidableEq, Repr

/-- The `/describe/tool/:toolName` route of http-server.ts (lines 439-459):
look the name up with `find` in the aggregated catalog; absent names get a
404 JSON error naming the tool; present names get the found definition, a
single example with empty arguments, an empty `relatedTools` array, and
`getToolCategory`'s label. -/
def describeToolRoute (allTools : List ToolDefinition) (toolName : String) :
    Except String DescribeToolResponse :=
  match allTools.find? (fun t => t.name == toolName) with
  | none => .error ("Tool \x27" ++ toolName ++ "\x27 not found")
  | some tool => .ok ⟨tool, [⟨tool.name, []⟩], [], getToolCategory toolName⟩

/-- `getAllTools` (http-server.ts lines 210-232, server.ts lines 111-133):
the catalog is the plain concatenation of each group's published definitions,
in registration order; no check of any kind is performed. -/
def getAllTools (groupDefs : List (List ToolDefinition)) : List ToolDefinition :=
  groupDefs.flatten

/-- The 19 per-group name lists of the HTTP entry point, in routing order. -/
def httpGroupLists : List (List String) :=
  [httpContactToolNames, httpConversationToolNames, httpBlogToolNames,
   httpOpportunityToolNames, httpCalendarToolNames, httpEmailToolNames,
   httpLocationToolNames, httpEmailISVToolNames, httpSocialMediaToolNames,
   httpMediaToolNames, httpObjectToolNames, httpAssociationToolNames,
   httpCustomFieldV2ToolNames, httpWorkflowToolNames, httpSurveyToolNames,
   httpStoreToolNames, httpProductsToolNames, httpPaymentsToolNames,
   httpInvoicesToolNames]

/-- Modelled from the spec: the name-level content of the aggregated catalog.
The per-group tool modules (src/tools/*.ts), whose `getToolDefinitions` /
`getTools` outputs `getAllTools` concatenates, are not part of the source
tree; the spec states that each group owns a fixed, disjoint set of tool
names known at build time and that the catalog is the concatenation of each
group's published definitions in registration order, so each group's
published name set is modelled by its static routing list. -/
def httpCatalogNames : List String := httpGroupLists.flatten

/-- The spec's description of the classifier, taken literally: the fixed
priority list of labels with their cue substrings, highest priority first. -/
def specCategoryRules : List (String × List String) :=
  [("Contact Management", ["contact"]),
   ("Messaging & Communication", ["message", "sms", "email", "conversation"]),
   ("Sales & Opportunities", ["opportunity", "pipeline"]),
   ("Calendar & Appointments", ["calendar", "appointment", "event"]),
   ("Payments & Billing", ["payment", "invoice", "billing", "transaction"]),
   ("Marketing & Social Media", ["social", "blog", "media", "campaign"]),
   ("Business Operations", ["location", "workflow", "survey", "store"]),
   ("Custom Objects & Data", ["object", "custom", "field", "association"])]

/-- First rule whose cue set matches the (already lowered) name; the spec's
"the first matching label wins", with "Other" when nothing matches. -/
def firstMatchingLabel (n : String) : List (String × List String) → String
  | [] => "Other"
  | (label, cues) :: rest =>
      if cues.any (fun cue => strContains n cue) then label
      else firstMatchingLabel n rest

/-- The classifier as the spec words it: lower-case the name, then take the
first matching rule of the priority list. -/
def specCategoryOf (name : String) : String :=
  firstMatchingLabel (jsToLower name) specCategoryRules

/-- A capability-group behaviour that always succeeds with `null`;
concrete instantiation material. -/
def noopExec : ExecBehavior := fun _ _ _ => .ok JSVal.null

/-- A capability-group behaviour whose every call fails the way the backend
client surfaces an HTTP 404. -/
def exec404 : ExecBehavior := fun _ _ _ => .error "Request failed with status code 404"

/-- A capability-group behaviour that always succeeds with the string "ok". -/
def okExec : ExecBehavior := fun _ _ _ => .ok (JSVal.str "ok")

/-- A concrete contact tool definition (schema shaped like the real
`create_contact` tool: a required email-named field). -/
def createContactTool : ToolDefinition :=
  ⟨"create_contact", "Create a new contact in GoHighLevel",
   ⟨some [("email", "string"), ("firstName", "string")], ["email"]⟩⟩

/-- A second concrete contact tool, sharing the "contact" entity keyword. -/
def updateContactTool : ToolDefinition :=
  ⟨"update_contact", "Update an existing contact",
   ⟨some [("contactId", "string")], ["contactId"]⟩⟩

/-- A two-tool catalog over the concrete contact tools. -/
def smallCatalog : List ToolDefinition := [createContactTool, updateContactTool]

/-- A tool named "x" as contributed by a first group. -/
def dupToolA : ToolDefinition := ⟨"x", "x from group A", ⟨none, []⟩⟩

/-- A tool also named "x" as contributed by a second group, with different
content. -/
def dupToolB : ToolDefinition := ⟨"x", "x from group B", ⟨none, []⟩⟩

/-! Helper lemmas. -/

/-- The two transports' routing chains are literally the same function: each
corresponding name list is the same literal, so the chains agree
definitionally. -/
theorem groupOf_agree : ∀ n, httpGroupOf n = stdioGroupOf n := fun _ => rfl

/-- Membership makes `contains` true. -/
theorem contains_of_mem {l : List String} {a : String} (h : a ∈ l) :
    l.contains a = true :=
  List.elem_eq_true_of_mem h

/-- Non-membership makes `contains` false. -/
theorem contains_eq_false_of_not_mem {l : List String} {a : String} (h : a ∉ l) :
    l.contains a = false := by
  cases hc : l.contains a
  · rfl
  · exact absurd (List.elem_iff.mp hc) h

/-- A verified all-not-contains check yields propositional disjointness. -/
theorem disjoint_of_check {l₁ l₂ : List String}
    (h : (l₁.all fun m => !l₂.contains m) = true) : List.Disjoint l₁ l₂ := by
  intro a ha hb
  have hx := List.all_eq_true.mp h a ha
  simp only [Bool.not_eq_true'] at hx
  have ht : l₂.contains a = true := contains_of_mem hb
  rw [ht] at hx
  cases hx

/-! Pairwise disjointness of the 19 per-group name lists, each verified by
kernel computation on the concrete lists. -/

theorem httpDisjoint_0_1 : List.Disjoint httpContactToolNames httpConversationToolNames :=
  disjoint_of_check (by rfl)

theorem httpDisjoint_0_2 : List.Disjoint httpContactToolNames httpBlogToolNames :=
  disjoint_of_check (by rfl)

theorem httpDisjoint_0_3 : List.Disjoint httpContactToolNames httpOpportunityToolNames :=
  disjoint_of_check (by rfl)

theorem httpDisjoint_0_4 : List.Disjoint httpContactToolNames httpCalendarToolNames :=
  disjoint_of_check (by rfl)

theorem httpDisjoint_0_5 : List.Disjoint httpContactToolNames httpEmailToolNames :=
  disjoint_of_check (by rfl)

theorem httpDisjoint_0_6 : List.Disjoint httpContactToolNames httpLocationToolNames :=
  disjoint_of_check (by rfl)

theorem httpDisjoint_0_7 : List.Disjoint httpContactToolNames httpEmailISVToolNames :=
  disjoint_of_check (by rfl)

theorem httpDisjoint_0_8 : List.Disjoint httpContactToolNames httpSocialMediaToolNames :=
  disjoint_of_check (by rfl)

theorem httpDisjoint_0_9 : List.Disjoint httpContactToolNames httpMediaToolNames :=
  disjoint_of_check (by rfl)

theorem httpDisjoint_0_10 : List.Disjoint httpContactToolNames httpObjectToolNames :=
  disjoint_of_check (by rfl)

theorem httpDisjoint_0_11 : List.Disjoint httpContactToolNames httpAssociationToolNames :=
  disjoint_of_check (by rfl)

theorem httpDisjoint_0_12 : List.Disjoint httpContactToolNames httpCustomFieldV2ToolNames :=
  disjoint_of_check (by rfl)

theorem httpDisjoint_0_13 : List.Disjoint httpContactToolNames httpWorkflowToolNames :=
  disjoint_of_check (by rfl)

theorem httpDisjoint_0_14 : List.Disjoint httpContactToolNames httpSurveyToolNames :=
  disjoint_of_check (by rfl)

theorem httpDisjoint_0_15 : List.Disjoint httpContactToolNames httpStoreToolNames :=
  disjoint_of_check (by rfl)

theorem httpDisjoint_0_16 : List.Disjoint httpContactToolNames httpProductsToolNames :=
  disjoint_of_check (by rfl)

theorem httpDisjoint_0_17 : List.Disjoint httpContactToolNames httpPaymentsToolNames :=
  disjoint_of_check (by rfl)

theorem httpDisjoint_0_18 : List.Disjoint httpContactToolNames httpInvoicesToolNames :=
  disjoint_of_check (by rfl)

theorem httpDisjoint_1_2 : List.Disjoint httpConversationToolNames httpBlogToolNames :=
  disjoint_of_check (by rfl)

theorem httpDisjoint_1_3 : List.Disjoint httpConversationToolNames httpOpportunityToolNames :=
  disjoint_of_check (by rfl)

theorem httpDisjoint_1_4 : List.Disjoint httpConversationToolNames httpCalendarToolNames :=
  disjoint_of_check (by rfl)

theorem httpDisjoint_1_5 : List.Disjoint httpConversationToolNames httpEmailToolNames :=
  disjoint_of_check (by rfl)

theorem httpDisjoint_1_6 : List.Disjoint httpConversationToolNames httpLocationToolNames :=
  disjoint_of_check (by rfl)

theorem httpDisjoint_1_7 : List.Disjoint httpConversationToolNames httpEmailISVToolNames :=
  disjoint_of_check (by rfl)

theorem httpDisjoint_1_8 : List.Disjoint httpConversationToolNames httpSocialMediaToolNames :=
  disjoint_of_check (by rfl)

theorem httpDisjoint_1_9 : List.Disjoint httpConversationToolNames httpMediaToolNames :=
  disjoint_of_check (by rfl)

theorem httpDisjoint_1_10 : List.Disjoint httpConversationToolNames httpObjectToolNames :=
  disjoint_of_check (by rfl)

theorem httpDisjoint_1_11 : List.Disjoint httpConversationToolNames httpAssociationToolNames :=
  disjoint_of_check (by rfl)

theorem httpDisjoint_1_12 : List.Disjoint httpConversationToolNames httpCustomFieldV2ToolNames :=
  disjoint_of_check (by rfl)

theorem httpDisjoint_1_13 : List.Disjoint httpConversationToolNames httpWorkflowToolNames :=
  disjoint_of_check (by rfl)

theorem httpDisjoint_1_14 : List.Disjoint httpConversationToolNames httpSurveyToolNames :=
  disjoint_of_check (by rfl)

theorem httpDisjoint_1_15 : List.Disjoint httpConversationToolNames httpStoreToolNames :=
  disjoint_of_check (by rfl)

theorem httpDisjoint_1_16 : List.Disjoint httpConversationToolNames httpProductsToolNames :=
  disjoint_of_check (by rfl)

theorem httpDisjoint_1_17 : List.Disjoint httpConversationToolNames httpPaymentsToolNames :=
  disjoint_of_check (by rfl)

theorem httpDisjoint_1_18 : List.Disjoint httpConversationToolNames httpInvoicesToolNames :=
  disjoint_of_check (by rfl)

theorem httpDisjoint_2_3 : List.Disjoint httpBlogToolNames httpOpportunityToolNames :=
  disjoint_of_check (by rfl)

theorem httpDisjoint_2_4 : List.Disjoint httpBlogToolNames httpCalendarToolNames :=
  disjoint_of_check (by rfl)

theorem httpDisjoint_2_5 : List.Disjoint httpBlogToolNames httpEmailToolNames :=
  disjoint_of_check (by rfl)

theorem httpDisjoint_2_6 : List.Disjoint httpBlogToolNames httpLocationToolNames :=
  disjoint_of_check (by rfl)

theorem httpDisjoint_2_7 : List.Disjoint httpBlogToolNames httpEmailISVToolNames :=
  disjoint_of_check (by rfl)

theorem httpDisjoint_2_8 : List.Disjoint httpBlogToolNames httpSocialMediaToolNames :=
  disjoint_of_check (by rfl)

theorem httpDisjoint_2_9 : List.Disjoint httpBlogToolNames httpMediaToolNames :=
  disjoint_of_check (by rfl)

theorem httpDisjoint_2_10 : List.Disjoint httpBlogToolNames httpObjectToolNames :=
  disjoint_of_check (by rfl)

theorem httpDisjoint_2_11 : List.Disjoint httpBlogToolNames httpAssociationToolNames :=
  disjoint_of_check (by rfl)

theorem httpDisjoint_2_12 : List.Disjoint httpBlogToolNames httpCustomFieldV2ToolNames :=
  disjoint_of_check (by rfl)

theorem httpDisjoint_2_13 : List.Disjoint httpBlogToolNames httpWorkflowToolNames :=
  disjoint_of_check (by rfl)

theorem httpDisjoint_2_14 : List.Disjoint httpBlogToolNames httpSurveyToolNames :=
  disjoint_of_check (by rfl)

theorem httpDisjoint_2_15 : List.Disjoint httpBlogToolNames httpStoreToolNames :=
  disjoint_of_check (by rfl)

theorem httpDisjoint_2_16 : List.Disjoint httpBlogToolNames httpProductsToolNames :=
  disjoint_of_check (by rfl)

theorem httpDisjoint_2_17 : List.Disjoint httpBlogToolNames httpPaymentsToolNames :=
  disjoint_of_check (by rfl)

theorem httpDisjoint_2_18 : List.Disjoint httpBlogToolNames httpInvoicesToolNames :=
  disjoint_of_check (by rfl)

theorem httpDisjoint_3_4 : List.Disjoint httpOpportunityToolNames httpCalendarToolNames :=
  disjoint_of_check (by rfl)

theorem httpDisjoint_3_5 : List.Disjoint httpOpportunityToolNames httpEmailToolNames :=
  disjoint_of_check (by rfl)

theorem httpDisjoint_3_6 : List.Disjoint httpOpportunityToolNames httpLocationToolNames :=
  disjoint_of_check (by rfl)

theorem httpDisjoint_3_7 : List.Disjoint httpOpportunityToolNames httpEmailISVToolNames :=
  disjoint_of_check (by rfl)

theorem httpDisjoint_3_8 : List.Disjoint httpOpportunityToolNames httpSocialMediaToolNames :=
  disjoint_of_check (by rfl)

theorem httpDisjoint_3_9 : List.Disjoint httpOpportunityToolNames httpMediaToolNames :=
  disjoint_of_check (by rfl)

theorem httpDisjoint_3_10 : List.Disjoint httpOpportunityToolNames httpObjectToolNames :=
  disjoint_of_check (by rfl)

theorem httpDisjoint_3_11 : List.Disjoint httpOpportunityToolNames httpAssociationToolNames :=
  disjoint_of_check (by rfl)

theorem httpDisjoint_3_12 : List.Disjoint httpOpportunityToolNames httpCustomFieldV2ToolNames :=
  disjoint_of_check (by rfl)

theorem httpDisjoint_3_13 : List.Disjoint httpOpportunityToolNames httpWorkflowToolNames :=
  disjoint_of_check (by rfl)

theorem httpDisjoint_3_14 : List.Disjoint httpOpportunityToolNames httpSurveyToolNames :=
  disjoint_of_check (by rfl)

theorem httpDisjoint_3_15 : List.Disjoint httpOpportunityToolNames httpStoreToolNames :=
  disjoint_of_check (by rfl)

theorem httpDisjoint_3_16 : List.Disjoint httpOpportunityToolNames httpProductsToolNames :=
  disjoint_of_check (by rfl)

theorem httpDisjoint_3_17 : List.Disjoint httpOpportunityToolNames httpPaymentsToolNames :=
  disjoint_of_check (by rfl)

theorem httpDisjoint_3_18 : List.Disjoint httpOpportunityToolNames httpInvoicesToolNames :=
  disjoint_of_check (by rfl)

theorem httpDisjoint_4_5 : List.Disjoint httpCalendarToolNames httpEmailToolNames :=
  disjoint_of_check (by rfl)

theorem httpDisjoint_4_6 : List.Disjoint httpCalendarToolNames httpLocationToolNames :=
  disjoint_of_check (by rfl)

theorem httpDisjoint_4_7 : List.Disjoint httpCalendarToolNames httpEmailISVToolNames :=
  disjoint_of_check (by rfl)

theorem httpDisjoint_4_8 : List.Disjoint httpCalendarToolNames httpSocialMediaToolNames :=
  disjoint_of_check (by rfl)

theorem httpDisjoint_4_9 : List.Disjoint httpCalendarToolNames httpMediaToolNames :=
  disjoint_of_check (by rfl)

theorem httpDisjoint_4_10 : List.Disjoint httpCalendarToolNames httpObjectToolNames :=
  disjoint_of_check (by rfl)

theorem httpDisjoint_4_11 : List.Disjoint httpCalendarToolNames httpAssociationToolNames :=
  disjoint_of_check (by rfl)

theorem httpDisjoint_4_12 : List.Disjoint httpCalendarToolNames httpCustomFieldV2ToolNames :=
  disjoint_of_check (by rfl)

theorem httpDisjoint_4_13 : List.Disjoint httpCalendarToolNames httpWorkflowToolNames :=
  disjoint_of_check (by rfl)

theorem httpDisjoint_4_14 : List.Disjoint httpCalendarToolNames httpSurveyToolNames :=
  disjoint_of_check (by rfl)

theorem httpDisjoint_4_15 : List.Disjoint httpCalendarToolNames httpStoreToolNames :=
  disjoint_of_check (by rfl)

theorem httpDisjoint_4_16 : List.Disjoint httpCalendarToolNames httpProductsToolNames :=
  disjoint_of_check (by rfl)

theorem httpDisjoint_4_17 : List.Disjoint httpCalendarToolNames httpPaymentsToolNames :=
  disjoint_of_check (by rfl)

theorem httpDisjoint_4_18 : List.Disjoint httpCalendarToolNames httpInvoicesToolNames :=
  disjoint_of_check (by rfl)

theorem httpDisjoint_5_6 : List.Disjoint httpEmailToolNames httpLocationToolNames :=
  disjoint_of_check (by rfl)

theorem httpDisjoint_5_7 : List.Disjoint httpEmailToolNames httpEmailISVToolNames :=
  disjoint_of_check (by rfl)

theorem httpDisjoint_5_8 : List.Disjoint httpEmailToolNames httpSocialMediaToolNames :=
  disjoint_of_check (by rfl)

theorem httpDisjoint_5_9 : List.Disjoint httpEmailToolNames httpMediaToolNames :=
  disjoint_of_check (by rfl)

theorem httpDisjoint_5_10 : List.Disjoint httpEmailToolNames httpObjectToolNames :=
  disjoint_of_check (by rfl)

theorem httpDisjoint_5_11 : List.Disjoint httpEmailToolNames httpAssociationToolNames :=
  disjoint_of_check (by rfl)

theorem httpDisjoint_5_12 : List.Disjoint httpEmailToolNames httpCustomFieldV2ToolNames :=
  disjoint_of_check (by rfl)

theorem httpDisjoint_5_13 : List.Disjoint httpEmailToolNames httpWorkflowToolNames :=
  disjoint_of_check (by rfl)

theorem httpDisjoint_5_14 : List.Disjoint httpEmailToolNames httpSurveyToolNames :=
  disjoint_of_check (by rfl)

theorem httpDisjoint_5_15 : List.Disjoint httpEmailToolNames httpStoreToolNames :=
  disjoint_of_check (by rfl)

theorem httpDisjoint_5_16 : List.Disjoint httpEmailToolNames httpProductsToolNames :=
  disjoint_of_check (by rfl)

theorem httpDisjoint_5_17 : List.Disjoint httpEmailToolNames httpPaymentsToolNames :=
  disjoint_of_check (by rfl)

theorem httpDisjoint_5_18 : List.Disjoint httpEmailToolNames httpInvoicesToolNames :=
  disjoint_of_check (by rfl)

theorem httpDisjoint_6_7 : List.Disjoint httpLocationToolNames httpEmailISVToolNames :=
  disjoint_of_check (by rfl)

theorem httpDisjoint_6_8 : List.Disjoint httpLocationToolNames httpSocialMediaToolNames :=
  disjoint_of_check (by rfl)

theorem httpDisjoint_6_9 : List.Disjoint httpLocationToolNames httpMediaToolNames :=
  disjoint_of_check (by rfl)

theorem httpDisjoint_6_10 : List.Disjoint httpLocationToolNames httpObjectToolNames :=
  disjoint_of_check (by rfl)

theorem httpDisjoint_6_11 : List.Disjoint httpLocationToolNames httpAssociationToolNames :=
  disjoint_of_check (by rfl)

theorem httpDisjoint_6_12 : List.Disjoint httpLocationToolNames httpCustomFieldV2ToolNames :=
  disjoint_of_check (by rfl)

theorem httpDisjoint_6_13 : List.Disjoint httpLocationToolNames httpWorkflowToolNames :=
  disjoint_of_check (by rfl)

theorem httpDisjoint_6_14 : List.Disjoint httpLocationToolNames httpSurveyToolNames :=
  disjoint_of_check (by rfl)

theorem httpDisjoint_6_15 : List.Disjoint httpLocationToolNames httpStoreToolNames :=
  disjoint_of_check (by rfl)

theorem httpDisjoint_6_16 : List.Disjoint httpLocationToolNames httpProductsToolNames :=
  disjoint_of_check (by rfl)

theorem httpDisjoint_6_17 : List.Disjoint httpLocationToolNames httpPaymentsToolNames :=
  disjoint_of_check (by rfl)

theorem httpDisjoint_6_18 : List.Disjoint httpLocationToolNames httpInvoicesToolNames :=
  disjoint_of_check (by rfl)

theorem httpDisjoint_7_8 : List.Disjoint httpEmailISVToolNames httpSocialMediaToolNames :=
  disjoint_of_check (by rfl)

theorem httpDisjoint_7_9 : List.Disjoint httpEmailISVToolNames httpMediaToolNames :=
  disjoint_of_check (by rfl)

theorem httpDisjoint_7_10 : List.Disjoint httpEmailISVToolNames httpObjectToolNames :=
  disjoint_of_check (by rfl)

theorem httpDisjoint_7_11 : List.Disjoint httpEmailISVToolNames httpAssociationToolNames :=
  disjoint_of_check (by rfl)

theorem httpDisjoint_7_12 : List.Disjoint httpEmailISVToolNames httpCustomFieldV2ToolNames :=
  disjoint_of_check (by rfl)

theorem httpDisjoint_7_13 : List.Disjoint httpEmailISVToolNames httpWorkflowToolNames :=
  disjoint_of_check (by rfl)

theorem httpDisjoint_7_14 : List.Disjoint httpEmailISVToolNames httpSurveyToolNames :=
  disjoint_of_check (by rfl)

theorem httpDisjoint_7_15 : List.Disjoint httpEmailISVToolNames httpStoreToolNames :=
  disjoint_of_check (by rfl)

theorem httpDisjoint_7_16 : List.Disjoint httpEmailISVToolNames httpProductsToolNames :=
  disjoint_of_check (by rfl)

theorem httpDisjoint_7_17 : List.Disjoint httpEmailISVToolNames httpPaymentsToolNames :=
  disjoint_of_check (by rfl)

theorem httpDisjoint_7_18 : List.Disjoint httpEmailISVToolNames httpInvoicesToolNames :=
  disjoint_of_check (by rfl)

theorem httpDisjoint_8_9 : List.Disjoint httpSocialMediaToolNames httpMediaToolNames :=
  disjoint_of_check (by rfl)

theorem httpDisjoint_8_10 : List.Disjoint httpSocialMediaToolNames httpObjectToolNames :=
  disjoint_of_check (by rfl)

theorem httpDisjoint_8_11 : List.Disjoint httpSocialMediaToolNames httpAssociationToolNames :=
  disjoint_of_check (by rfl)

theorem httpDisjoint_8_12 : List.Disjoint httpSocialMediaToolNames httpCustomFieldV2ToolNames :=
  disjoint_of_check (by rfl)

theorem httpDisjoint_8_13 : List.Disjoint httpSocialMediaToolNames httpWorkflowToolNames :=
  disjoint_of_check (by rfl)

theorem httpDisjoint_8_14 : List.Disjoint httpSocialMediaToolNames httpSurveyToolNames :=
  disjoint_of_check (by rfl)

theorem httpDisjoint_8_15 : List.Disjoint httpSocialMediaToolNames httpStoreToolNames :=
  disjoint_of_check (by rfl)

theorem httpDisjoint_8_16 : List.Disjoint httpSocialMediaToolNames httpProductsToolNames :=
  disjoint_of_check (by rfl)

theorem httpDisjoint_8_17 : List.Disjoint httpSocialMediaToolNames httpPaymentsToolNames :=
  disjoint_of_check (by rfl)

theorem httpDisjoint_8_18 : List.Disjoint httpSocialMediaToolNames httpInvoicesToolNames :=
  disjoint_of_check (by rfl)

theorem httpDisjoint_9_10 : List.Disjoint httpMediaToolNames httpObjectToolNames :=
  disjoint_of_check (by rfl)

theorem httpDisjoint_9_11 : List.Disjoint httpMediaToolNames httpAssociationToolNames :=
  disjoint_of_check (by rfl)

theorem httpDisjoint_9_12 : List.Disjoint httpMediaToolNames httpCustomFieldV2ToolNames :=
  disjoint_of_check (by rfl)

theorem httpDisjoint_9_13 : List.Disjoint httpMediaToolNames httpWorkflowToolNames :=
  disjoint_of_check (by rfl)

theorem httpDisjoint_9_14 : List.Disjoint httpMediaToolNames httpSurveyToolNames :=
  disjoint_of_check (by rfl)

theorem httpDisjoint_9_15 : List.Disjoint httpMediaToolNames httpStoreToolNames :=
  disjoint_of_check (by rfl)

theorem httpDisjoint_9_16 : List.Disjoint httpMediaToolNames httpProductsToolNames :=
  disjoint_of_check (by rfl)

theorem httpDisjoint_9_17 : List.Disjoint httpMediaToolNames httpPaymentsToolNames :=
  disjoint_of_check (by rfl)

theorem httpDisjoint_9_18 : List.Disjoint httpMediaToolNames httpInvoicesToolNames :=
  disjoint_of_check (by rfl)

theorem httpDisjoint_10_11 : List.Disjoint httpObjectToolNames httpAssociationToolNames :=
  disjoint_of_check (by rfl)

theorem httpDisjoint_10_12 : List.Disjoint httpObjectToolNames httpCustomFieldV2ToolNames :=
  disjoint_of_check (by rfl)

theorem httpDisjoint_10_13 : List.Disjoint httpObjectToolNames httpWorkflowToolNames :=
  disjoint_of_check (by rfl)

theorem httpDisjoint_10_14 : List.Disjoint httpObjectToolNames httpSurveyToolNames :=
  disjoint_of_check (by rfl)

theorem httpDisjoint_10_15 : List.Disjoint httpObjectToolNames httpStoreToolNames :=
  disjoint_of_check (by rfl)

theorem httpDisjoint_10_16 : List.Disjoint httpObjectToolNames httpProductsToolNames :=
  disjoint_of_check (by rfl)

theorem httpDisjoint_10_17 : List.Disjoint httpObjectToolNames httpPaymentsToolNames :=
  disjoint_of_check (by rfl)

theorem httpDisjoint_10_18 : List.Disjoint httpObjectToolNames httpInvoicesToolNames :=
  disjoint_of_check (by rfl)

theorem httpDisjoint_11_12 : List.Disjoint httpAssociationToolNames httpCustomFieldV2ToolNames :=
  disjoint_of_check (by rfl)

theorem httpDisjoint_11_13 : List.Disjoint httpAssociationToolNames httpWorkflowToolNames :=
  disjoint_of_check (by rfl)

theorem httpDisjoint_11_14 : List.Disjoint httpAssociationToolNames httpSurveyToolNames :=
  disjoint_of_check (by rfl)

theorem httpDisjoint_11_15 : List.Disjoint httpAssociationToolNames httpStoreToolNames :=
  disjoint_of_check (by rfl)

theorem httpDisjoint_11_16 : List.Disjoint httpAssociationToolNames httpProductsToolNames :=
  disjoint_of_check (by rfl)

theorem httpDisjoint_11_17 : List.Disjoint httpAssociationToolNames httpPaymentsToolNames :=
  disjoint_of_check (by rfl)

theorem httpDisjoint_11_18 : List.Disjoint httpAssociationToolNames httpInvoicesToolNames :=
  disjoint_of_check (by rfl)

theorem httpDisjoint_12_13 : List.Disjoint httpCustomFieldV2ToolNames httpWorkflowToolNames :=
  disjoint_of_check (by rfl)

theorem httpDisjoint_12_14 : List.Disjoint httpCustomFieldV2ToolNames httpSurveyToolNames :=
  disjoint_of_check (by rfl)

theorem httpDisjoint_12_15 : List.Disjoint httpCustomFieldV2ToolNames httpStoreToolNames :=
  disjoint_of_check (by rfl)

theorem httpDisjoint_12_16 : List.Disjoint httpCustomFieldV2ToolNames httpProductsToolNames :=
  disjoint_of_check (by rfl)

theorem httpDisjoint_12_17 : List.Disjoint httpCustomFieldV2ToolNames httpPaymentsToolNames :=
  disjoint_of_check (by rfl)

theorem httpDisjoint_12_18 : List.Disjoint httpCustomFieldV2ToolNames httpInvoicesToolNames :=
  disjoint_of_check (by rfl)

theorem httpDisjoint_13_14 : List.Disjoint httpWorkflowToolNames httpSurveyToolNames :=
  disjoint_of_check (by rfl)

theorem httpDisjoint_13_15 : List.Disjoint httpWorkflowToolNames httpStoreToolNames :=
  disjoint_of_check (by rfl)

theorem httpDisjoint_13_16 : List.Disjoint httpWorkflowToolNames httpProductsToolNames :=
  disjoint_of_check (by rfl)

theorem httpDisjoint_13_17 : List.Disjoint httpWorkflowToolNames httpPaymentsToolNames :=
  disjoint_of_check (by rfl)

theorem httpDisjoint_13_18 : List.Disjoint httpWorkflowToolNames httpInvoicesToolNames :=
  disjoint_of_check (by rfl)

theorem httpDisjoint_14_15 : List.Disjoint httpSurveyToolNames httpStoreToolNames :=
  disjoint_of_check (by rfl)

theorem httpDisjoint_14_16 : List.Disjoint httpSurveyToolNames httpProductsToolNames :=
  disjoint_of_check (by rfl)

theorem httpDisjoint_14_17 : List.Disjoint httpSurveyToolNames httpPaymentsToolNames :=
  disjoint_of_check (by rfl)

theorem httpDisjoint_14_18 : List.Disjoint httpSurveyToolNames httpInvoicesToolNames :=
  disjoint_of_check (by rfl)

theorem httpDisjoint_15_16 : List.Disjoint httpStoreToolNames httpProductsToolNames :=
  disjoint_of_check (by rfl)

theorem httpDisjoint_15_17 : List.Disjoint httpStoreToolNames httpPaymentsToolNames :=
  disjoint_of_check (by rfl)

theorem httpDisjoint_15_18 : List.Disjoint httpStoreToolNames httpInvoicesToolNames :=
  disjoint_of_check (by rfl)

theorem httpDisjoint_16_17 : List.Disjoint httpProductsToolNames httpPaymentsToolNames :=
  disjoint_of_check (by rfl)

theorem httpDisjoint_16_18 : List.Disjoint httpProductsToolNames httpInvoicesToolNames :=
  disjoint_of_check (by rfl)

theorem httpDisjoint_17_18 : List.Disjoint httpPaymentsToolNames httpInvoicesToolNames :=
  disjoint_of_check (by rfl)

/-! Per-group routing lemmas: a name in group i's static list is contained in
no other group's list, both routing chains resolve it to group i, and exactly
one of the 19 lists claims it. -/

theorem httpRoute_contact {n : String} (h : n ∈ httpContactToolNames) :
    httpGroupLists.countP (fun l => l.contains n) = 1 ∧
    ∃ g, httpGroupOf n = some g ∧ stdioGroupOf n = some g := by
  have nm1 : n ∉ httpConversationToolNames := httpDisjoint_0_1 h
  have nm2 : n ∉ httpBlogToolNames := httpDisjoint_0_2 h
  have nm3 : n ∉ httpOpportunityToolNames := httpDisjoint_0_3 h
  have nm4 : n ∉ httpCalendarToolNames := httpDisjoint_0_4 h
  have nm5 : n ∉ httpEmailToolNames := httpDisjoint_0_5 h
  have nm6 : n ∉ httpLocationToolNames := httpDisjoint_0_6 h
  have nm7 : n ∉ httpEmailISVToolNames := httpDisjoint_0_7 h
  have nm8 : n ∉ httpSocialMediaToolNames := httpDisjoint_0_8 h
  have nm9 : n ∉ httpMediaToolNames := httpDisjoint_0_9 h
  have nm10 : n ∉ httpObjectToolNames := httpDisjoint_0_10 h
  have nm11 : n ∉ httpAssociationToolNames := httpDisjoint_0_11 h
  have nm12 : n ∉ httpCustomFieldV2ToolNames := httpDisjoint_0_12 h
  have nm13 : n ∉ httpWorkflowToolNames := httpDisjoint_0_13 h
  have nm14 : n ∉ httpSurveyToolNames := httpDisjoint_0_14 h
  have nm15 : n ∉ httpStoreToolNames := httpDisjoint_0_15 h
  have nm16 : n ∉ httpProductsToolNames := httpDisjoint_0_16 h
  have nm17 : n ∉ httpPaymentsToolNames := httpDisjoint_0_17 h
  have nm18 : n ∉ httpInvoicesToolNames := httpDisjoint_0_18 h
  refine ⟨?_, GroupId.contact, ?_, ?_⟩
  · simp [httpGroupLists, List.countP_cons, h, nm1, nm2, nm3, nm4, nm5, nm6, nm7, nm8, nm9, nm10, nm11, nm12, nm13, nm14, nm15, nm16, nm17, nm18]
  · simp [httpGroupOf, h, nm1, nm2, nm3, nm4, nm5, nm6, nm7, nm8, nm9, nm10, nm11, nm12, nm13, nm14, nm15, nm16, nm17, nm18]
  · rw [← groupOf_agree]
    simp [httpGroupOf, h, nm1, nm2, nm3, nm4, nm5, nm6, nm7, nm8, nm9, nm10, nm11, nm12, nm13, nm14, nm15, nm16, nm17, nm18]

theorem httpRoute_conversation {n : String} (h : n ∈ httpConversationToolNames) :
    httpGroupLists.countP (fun l => l.contains n) = 1 ∧
    ∃ g, httpGroupOf n = some g ∧ stdioGroupOf n = some g := by
  have nm0 : n ∉ httpContactToolNames := List.disjoint_right.mp httpDisjoint_0_1 h
  have nm2 : n ∉ httpBlogToolNames := httpDisjoint_1_2 h
  have nm3 : n ∉ httpOpportunityToolNames := httpDisjoint_1_3 h
  have nm4 : n ∉ httpCalendarToolNames := httpDisjoint_1_4 h
  have nm5 : n ∉ httpEmailToolNames := httpDisjoint_1_5 h
  have nm6 : n ∉ httpLocationToolNames := httpDisjoint_1_6 h
  have nm7 : n ∉ httpEmailISVToolNames := httpDisjoint_1_7 h
  have nm8 : n ∉ httpSocialMediaToolNames := httpDisjoint_1_8 h
  have nm9 : n ∉ httpMediaToolNames := httpDisjoint_1_9 h
  have nm10 : n ∉ httpObjectToolNames := httpDisjoint_1_10 h
  have nm11 : n ∉ httpAssociationToolNames := httpDisjoint_1_11 h
  have nm12 : n ∉ httpCustomFieldV2ToolNames := httpDisjoint_1_12 h
  have nm13 : n ∉ httpWorkflowToolNames := httpDisjoint_1_13 h
  have nm14 : n ∉ httpSurveyToolNames := httpDisjoint_1_14 h
  have nm15 : n ∉ httpStoreToolNames := httpDisjoint_1_15 h
  have nm16 : n ∉ httpProductsToolNames := httpDisjoint_1_16 h
  have nm17 : n ∉ httpPaymentsToolNames := httpDisjoint_1_17 h
  have nm18 : n ∉ httpInvoicesToolNames := httpDisjoint_1_18 h
  refine ⟨?_, GroupId.conversation, ?_, ?_⟩
  · simp [httpGroupLists, List.countP_cons, h, nm0, nm2, nm3, nm4, nm5, nm6, nm7, nm8, nm9, nm10, nm11, nm12, nm13, nm14, nm15, nm16, nm17, nm18]
  · simp [httpGroupOf, h, nm0, nm2, nm3, nm4, nm5, nm6, nm7, nm8, nm9, nm10, nm11, nm12, nm13, nm14, nm15, nm16, nm17, nm18]
  · rw [← groupOf_agree]
    simp [httpGroupOf, h, nm0, nm2, nm3, nm4, nm5, nm6, nm7, nm8, nm9, nm10, nm11, nm12, nm13, nm14, nm15, nm16, nm17, nm18]

theorem httpRoute_blog {n : String} (h : n ∈ httpBlogToolNames) :
    httpGroupLists.countP (fun l => l.contains n) = 1 ∧
    ∃ g, httpGroupOf n = some g ∧ stdioGroupOf n = some g := by
  have nm0 : n ∉ httpContactToolNames := List.disjoint_right.mp httpDisjoint_0_2 h
  have nm1 : n ∉ httpConversationToolNames := List.disjoint_right.mp httpDisjoint_1_2 h
  have nm3 : n ∉ httpOpportunityToolNames := httpDisjoint_2_3 h
  have nm4 : n ∉ httpCalendarToolNames := httpDisjoint_2_4 h
  have nm5 : n ∉ httpEmailToolNames := httpDisjoint_2_5 h
  have nm6 : n ∉ httpLocationToolNames := httpDisjoint_2_6 h
  have nm7 : n ∉ httpEmailISVToolNames := httpDisjoint_2_7 h
  have nm8 : n ∉ httpSocialMediaToolNames := httpDisjoint_2_8 h
  have nm9 : n ∉ httpMediaToolNames := httpDisjoint_2_9 h
  have nm10 : n ∉ httpObjectToolNames := httpDisjoint_2_10 h
  have nm11 : n ∉ httpAssociationToolNames := httpDisjoint_2_11 h
  have nm12 : n ∉ httpCustomFieldV2ToolNames := httpDisjoint_2_12 h
  have nm13 : n ∉ httpWorkflowToolNames := httpDisjoint_2_13 h
  have nm14 : n ∉ httpSurveyToolNames := httpDisjoint_2_14 h
  have nm15 : n ∉ httpStoreToolNames := httpDisjoint_2_15 h
  have nm16 : n ∉ httpProductsToolNames := httpDisjoint_2_16 h
  have nm17 : n ∉ httpPaymentsToolNames := httpDisjoint_2_17 h
  have nm18 : n ∉ httpInvoicesToolNames := httpDisjoint_2_18 h
  refine ⟨?_, GroupId.blog, ?_, ?_⟩
  · simp [httpGroupLists, List.countP_cons, h, nm0, nm1, nm3, nm4, nm5, nm6, nm7, nm8, nm9, nm10, nm11, nm12, nm13, nm14, nm15, nm16, nm17, nm18]
  · simp [httpGroupOf, h, nm0, nm1, nm3, nm4, nm5, nm6, nm7, nm8, nm9, nm10, nm11, nm12, nm13, nm14, nm15, nm16, nm17, nm18]
  · rw [← groupOf_agree]
    simp [httpGroupOf, h, nm0, nm1, nm3, nm4, nm5, nm6, nm7, nm8, nm9, nm10, nm11, nm12, nm13, nm14, nm15, nm16, nm17, nm18]

theorem httpRoute_opportunity {n : String} (h : n ∈ httpOpportunityToolNames) :
    httpGroupLists.countP (fun l => l.contains n) = 1 ∧
    ∃ g, httpGroupOf n = some g ∧ stdioGroupOf n = some g := by
  have nm0 : n ∉ httpContactToolNames := List.disjoint_right.mp httpDisjoint_0_3 h
  have nm1 : n ∉ httpConversationToolNames := List.disjoint_right.mp httpDisjoint_1_3 h
  have nm2 : n ∉ httpBlogToolNames := List.disjoint_right.mp httpDisjoint_2_3 h
  have nm4 : n ∉ httpCalendarToolNames := httpDisjoint_3_4 h
  have nm5 : n ∉ httpEmailToolNames := httpDisjoint_3_5 h
  have nm6 : n ∉ httpLocationToolNames := httpDisjoint_3_6 h
  have nm7 : n ∉ httpEmailISVToolNames := httpDisjoint_3_7 h
  have nm8 : n ∉ httpSocialMediaToolNames := httpDisjoint_3_8 h
  have nm9 : n ∉ httpMediaToolNames := httpDisjoint_3_9 h
  have nm10 : n ∉ httpObjectToolNames := httpDisjoint_3_10 h
  have nm11 : n ∉ httpAssociationToolNames := httpDisjoint_3_11 h
  have nm12 : n ∉ httpCustomFieldV2ToolNames := httpDisjoint_3_12 h
  have nm13 : n ∉ httpWorkflowToolNames := httpDisjoint_3_13 h
  have nm14 : n ∉ httpSurveyToolNames := httpDisjoint_3_14 h
  have nm15 : n ∉ httpStoreToolNames := httpDisjoint_3_15 h
  have nm16 : n ∉ httpProductsToolNames := httpDisjoint_3_16 h
  have nm17 : n ∉ httpPaymentsToolNames := httpDisjoint_3_17 h
  have nm18 : n ∉ httpInvoicesToolNames := httpDisjoint_3_18 h
  refine ⟨?_, GroupId.opportunity, ?_, ?_⟩
  · simp [httpGroupLists, List.countP_cons, h, nm0, nm1, nm2, nm4, nm5, nm6, nm7, nm8, nm9, nm10, nm11, nm12, nm13, nm14, nm15, nm16, nm17, nm18]
  · simp [httpGroupOf, h, nm0, nm1, nm2, nm4, nm5, nm6, nm7, nm8, nm9, nm10, nm11, nm12, nm13, nm14, nm15, nm16, nm17, nm18]
  · rw [← groupOf_agree]
    simp [httpGroupOf, h, nm0, nm1, nm2, nm4, nm5, nm6, nm7, nm8, nm9, nm10, nm11, nm12, nm13, nm14, nm15, nm16, nm17, nm18]

theorem httpRoute_calendar {n : String} (h : n ∈ httpCalendarToolNames) :
    httpGroupLists.countP (fun l => l.contains n) = 1 ∧
    ∃ g, httpGroupOf n = some g ∧ stdioGroupOf n = some g := by
  have nm0 : n ∉ httpContactToolNames := List.disjoint_right.mp httpDisjoint_0_4 h
  have nm1 : n ∉ httpConversationToolNames := List.disjoint_right.mp httpDisjoint_1_4 h
  have nm2 : n ∉ httpBlogToolNames := List.disjoint_right.mp httpDisjoint_2_4 h
  have nm3 : n ∉ httpOpportunityToolNames := List.disjoint_right.mp httpDisjoint_3_4 h
  have nm5 : n ∉ httpEmailToolNames := httpDisjoint_4_5 h
  have nm6 : n ∉ httpLocationToolNames := httpDisjoint_4_6 h
  have nm7 : n ∉ httpEmailISVToolNames := httpDisjoint_4_7 h
  have nm8 : n ∉ httpSocialMediaToolNames := httpDisjoint_4_8 h
  have nm9 : n ∉ httpMediaToolNames := httpDisjoint_4_9 h
  have nm10 : n ∉ httpObjectToolNames := httpDisjoint_4_10 h
  have nm11 : n ∉ httpAssociationToolNames := httpDisjoint_4_11 h
  have nm12 : n ∉ httpCustomFieldV2ToolNames := httpDisjoint_4_12 h
  have nm13 : n ∉ httpWorkflowToolNames := httpDisjoint_4_13 h
  have nm14 : n ∉ httpSurveyToolNames := httpDisjoint_4_14 h
  have nm15 : n ∉ httpStoreToolNames := httpDisjoint_4_15 h
  have nm16 : n ∉ httpProductsToolNames := httpDisjoint_4_16 h
  have nm17 : n ∉ httpPaymentsToolNames := httpDisjoint_4_17 h
  have nm18 : n ∉ httpInvoicesToolNames := httpDisjoint_4_18 h
  refine ⟨?_, GroupId.calendar, ?_, ?_⟩
  · simp [httpGroupLists, List.countP_cons, h, nm0, nm1, nm2, nm3, nm5, nm6, nm7, nm8, nm9, nm10, nm11, nm12, nm13, nm14, nm15, nm16, nm17, nm18]
  · simp [httpGroupOf, h, nm0, nm1, nm2, nm3, nm5, nm6, nm7, nm8, nm9, nm10, nm11, nm12, nm13, nm14, nm15, nm16, nm17, nm18]
  · rw [← groupOf_agree]
    simp [httpGroupOf, h, nm0, nm1, nm2, nm3, nm5, nm6, nm7, nm8, nm9, nm10, nm11, nm12, nm13, nm14, nm15, nm16, nm17, nm18]

theorem httpRoute_email {n : String} (h : n ∈ httpEmailToolNames) :
    httpGroupLists.countP (fun l => l.contains n) = 1 ∧
    ∃ g, httpGroupOf n = some g ∧ stdioGroupOf n = some g := by
  have nm0 : n ∉ httpContactToolNames := List.disjoint_right.mp httpDisjoint_0_5 h
  have nm1 : n ∉ httpConversationToolNames := List.disjoint_right.mp httpDisjoint_1_5 h
  have nm2 : n ∉ httpBlogToolNames := List.disjoint_right.mp httpDisjoint_2_5 h
  have nm3 : n ∉ httpOpportunityToolNames := List.disjoint_right.mp httpDisjoint_3_5 h
  have nm4 : n ∉ httpCalendarToolNames := List.disjoint_right.mp httpDisjoint_4_5 h
  have nm6 : n ∉ httpLocationToolNames := httpDisjoint_5_6 h
  have nm7 : n ∉ httpEmailISVToolNames := httpDisjoint_5_7 h
  have nm8 : n ∉ httpSocialMediaToolNames := httpDisjoint_5_8 h
  have nm9 : n ∉ httpMediaToolNames := httpDisjoint_5_9 h
  have nm10 : n ∉ httpObjectToolNames := httpDisjoint_5_10 h
  have nm11 : n ∉ httpAssociationToolNames := httpDisjoint_5_11 h
  have nm12 : n ∉ httpCustomFieldV2ToolNames := httpDisjoint_5_12 h
  have nm13 : n ∉ httpWorkflowToolNames := httpDisjoint_5_13 h
  have nm14 : n ∉ httpSurveyToolNames := httpDisjoint_5_14 h
  have nm15 : n ∉ httpStoreToolNames := httpDisjoint_5_15 h
  have nm16 : n ∉ httpProductsToolNames := httpDisjoint_5_16 h
  have nm17 : n ∉ httpPaymentsToolNames := httpDisjoint_5_17 h
  have nm18 : n ∉ httpInvoicesToolNames := httpDisjoint_5_18 h
  refine ⟨?_, GroupId.email, ?_, ?_⟩
  · simp [httpGroupLists, List.countP_cons, h, nm0, nm1, nm2, nm3, nm4, nm6, nm7, nm8, nm9, nm10, nm11, nm12, nm13, nm14, nm15, nm16, nm17, nm18]
  · simp [httpGroupOf, h, nm0, nm1, nm2, nm3, nm4, nm6, nm7, nm8, nm9, nm10, nm11, nm12, nm13, nm14, nm15, nm16, nm17, nm18]
  · rw [← groupOf_agree]
    simp [httpGroupOf, h, nm0, nm1, nm2, nm3, nm4, nm6, nm7, nm8, nm9, nm10, nm11, nm12, nm13, nm14, nm15, nm16, nm17, nm18]

theorem httpRoute_location {n : String} (h : n ∈ httpLocationToolNames) :
    httpGroupLists.countP (fun l => l.contains n) = 1 ∧
    ∃ g, httpGroupOf n = some g ∧ stdioGroupOf n = some g := by
  have nm0 : n ∉ httpContactToolNames := List.disjoint_right.mp httpDisjoint_0_6 h
  have nm1 : n ∉ httpConversationToolNames := List.disjoint_right.mp httpDisjoint_1_6 h
  have nm2 : n ∉ httpBlogToolNames := List.disjoint_right.mp httpDisjoint_2_6 h
  have nm3 : n ∉ httpOpportunityToolNames := List.disjoint_right.mp httpDisjoint_3_6 h
  have nm4 : n ∉ httpCalendarToolNames := List.disjoint_right.mp httpDisjoint_4_6 h
  have nm5 : n ∉ httpEmailToolNames := List.disjoint_right.mp httpDisjoint_5_6 h
  have nm7 : n ∉ httpEmailISVToolNames := httpDisjoint_6_7 h
  have nm8 : n ∉ httpSocialMediaToolNames := httpDisjoint_6_8 h
  have nm9 : n ∉ httpMediaToolNames := httpDisjoint_6_9 h
  have nm10 : n ∉ httpObjectToolNames := httpDisjoint_6_10 h
  have nm11 : n ∉ httpAssociationToolNames := httpDisjoint_6_11 h
  have nm12 : n ∉ httpCustomFieldV2ToolNames := httpDisjoint_6_12 h
  have nm13 : n ∉ httpWorkflowToolNames := httpDisjoint_6_13 h
  have nm14 : n ∉ httpSurveyToolNames := httpDisjoint_6_14 h
  have nm15 : n ∉ httpStoreToolNames := httpDisjoint_6_15 h
  have nm16 : n ∉ httpProductsToolNames := httpDisjoint_6_16 h
  have nm17 : n ∉ httpPaymentsToolNames := httpDisjoint_6_17 h
  have nm18 : n ∉ httpInvoicesToolNames := httpDisjoint_6_18 h
  refine ⟨?_, GroupId.location, ?_, ?_⟩
  · simp [httpGroupLists, List.countP_cons, h, nm0, nm1, nm2, nm3, nm4, nm5, nm7, nm8, nm9, nm10, nm11, nm12, nm13, nm14, nm15, nm16, nm17, nm18]
  · simp [httpGroupOf, h, nm0, nm1, nm2, nm3, nm4, nm5, nm7, nm8, nm9, nm10, nm11, nm12, nm13, nm14, nm15, nm16, nm17, nm18]
  · rw [← groupOf_agree]
    simp [httpGroupOf, h, nm0, nm1, nm2, nm3, nm4, nm5, nm7, nm8, nm9, nm10, nm11, nm12, nm13, nm14, nm15, nm16, nm17, nm18]

theorem httpRoute_emailISV {n : String} (h : n ∈ httpEmailISVToolNames) :
    httpGroupLists.countP (fun l => l.contains n) = 1 ∧
    ∃ g, httpGroupOf n = some g ∧ stdioGroupOf n = some g := by
  have nm0 : n ∉ httpContactToolNames := List.disjoint_right.mp httpDisjoint_0_7 h
  have nm1 : n ∉ httpConversationToolNames := List.disjoint_right.mp httpDisjoint_1_7 h
  have nm2 : n ∉ httpBlogToolNames := List.disjoint_right.mp httpDisjoint_2_7 h
  have nm3 : n ∉ httpOpportunityToolNames := List.disjoint_right.mp httpDisjoint_3_7 h
  have nm4 : n ∉ httpCalendarToolNames := List.disjoint_right.mp httpDisjoint_4_7 h
  have nm5 : n ∉ httpEmailToolNames := List.disjoint_right.mp httpDisjoint_5_7 h
  have nm6 : n ∉ httpLocationToolNames := List.disjoint_right.mp httpDisjoint_6_7 h
  have nm8 : n ∉ httpSocialMediaToolNames := httpDisjoint_7_8 h
  have nm9 : n ∉ httpMediaToolNames := httpDisjoint_7_9 h
  have nm10 : n ∉ httpObjectToolNames := httpDisjoint_7_10 h
  have nm11 : n ∉ httpAssociationToolNames := httpDisjoint_7_11 h
  have nm12 : n ∉ httpCustomFieldV2ToolNames := httpDisjoint_7_12 h
  have nm13 : n ∉ httpWorkflowToolNames := httpDisjoint_7_13 h
  have nm14 : n ∉ httpSurveyToolNames := httpDisjoint_7_14 h
  have nm15 : n ∉ httpStoreToolNames := httpDisjoint_7_15 h
  have nm16 : n ∉ httpProductsToolNames := httpDisjoint_7_16 h
  have nm17 : n ∉ httpPaymentsToolNames := httpDisjoint_7_17 h
  have nm18 : n ∉ httpInvoicesToolNames := httpDisjoint_7_18 h
  refine ⟨?_, GroupId.emailISV, ?_, ?_⟩
  · simp [httpGroupLists, List.countP_cons, h, nm0, nm1, nm2, nm3, nm4, nm5, nm6, nm8, nm9, nm10, nm11, nm12, nm13, nm14, nm15, nm16, nm17, nm18]
  · simp [httpGroupOf, h, nm0, nm1, nm2, nm3, nm4, nm5, nm6, nm8, nm9, nm10, nm11, nm12, nm13, nm14, nm15, nm16, nm17, nm18]
  · rw [← groupOf_agree]
    simp [httpGroupOf, h, nm0, nm1, nm2, nm3, nm4, nm5, nm6, nm8, nm9, nm10, nm11, nm12, nm13, nm14, nm15, nm16, nm17, nm18]

theorem httpRoute_socialMedia {n : String} (h : n ∈ httpSocialMediaToolNames) :
    httpGroupLists.countP (fun l => l.contains n) = 1 ∧
    ∃ g, httpGroupOf n = some g ∧ stdioGroupOf n = some g := by
  have nm0 : n ∉ httpContactToolNames := List.disjoint_right.mp httpDisjoint_0_8 h
  have nm1 : n ∉ httpConversationToolNames := List.disjoint_right.mp httpDisjoint_1_8 h
  have nm2 : n ∉ httpBlogToolNames := List.disjoint_right.mp httpDisjoint_2_8 h
  have nm3 : n ∉ httpOpportunityToolNames := List.disjoint_right.mp httpDisjoint_3_8 h
  have nm4 : n ∉ httpCalendarToolNames := List.disjoint_right.mp httpDisjoint_4_8 h
  have nm5 : n ∉ httpEmailToolNames := List.disjoint_right.mp httpDisjoint_5_8 h
  have nm6 : n ∉ httpLocationToolNames := List.disjoint_right.mp httpDisjoint_6_8 h
  have nm7 : n ∉ httpEmailISVToolNames := List.disjoint_right.mp httpDisjoint_7_8 h
  have nm9 : n ∉ httpMediaToolNames := httpDisjoint_8_9 h
  have nm10 : n ∉ httpObjectToolNames := httpDisjoint_8_10 h
  have nm11 : n ∉ httpAssociationToolNames := httpDisjoint_8_11 h
  have nm12 : n ∉ httpCustomFieldV2ToolNames := httpDisjoint_8_12 h
  have nm13 : n ∉ httpWorkflowToolNames := httpDisjoint_8_13 h
  have nm14 : n ∉ httpSurveyToolNames := httpDisjoint_8_14 h
  have nm15 : n ∉ httpStoreToolNames := httpDisjoint_8_15 h
  have nm16 : n ∉ httpProductsToolNames := httpDisjoint_8_16 h
  have nm17 : n ∉ httpPaymentsToolNames := httpDisjoint_8_17 h
  have nm18 : n ∉ httpInvoicesToolNames := httpDisjoint_8_18 h
  refine ⟨?_, GroupId.socialMedia, ?_, ?_⟩
  · simp [httpGroupLists, List.countP_cons, h, nm0, nm1, nm2, nm3, nm4, nm5, nm6, nm7, nm9, nm10, nm11, nm12, nm13, nm14, nm15, nm16, nm17, nm18]
  · simp [httpGroupOf, h, nm0, nm1, nm2, nm3, nm4, nm5, nm6, nm7, nm9, nm10, nm11, nm12, nm13, nm14, nm15, nm16, nm17, nm18]
  · rw [← groupOf_agree]
    simp [httpGroupOf, h, nm0, nm1, nm2, nm3, nm4, nm5, nm6, nm7, nm9, nm10, nm11, nm12, nm13, nm14, nm15, nm16, nm17, nm18]

theorem httpRoute_media {n : String} (h : n ∈ httpMediaToolNames) :
    httpGroupLists.countP (fun l => l.contains n) = 1 ∧
    ∃ g, httpGroupOf n = some g ∧ stdioGroupOf n = some g := by
  have nm0 : n ∉ httpContactToolNames := List.disjoint_right.mp httpDisjoint_0_9 h
  have nm1 : n ∉ httpConversationToolNames := List.disjoint_right.mp httpDisjoint_1_9 h
  have nm2 : n ∉ httpBlogToolNames := List.disjoint_right.mp httpDisjoint_2_9 h
  have nm3 : n ∉ httpOpportunityToolNames := List.disjoint_right.mp httpDisjoint_3_9 h
  have nm4 : n ∉ httpCalendarToolNames := List.disjoint_right.mp httpDisjoint_4_9 h
  have nm5 : n ∉ httpEmailToolNames := List.disjoint_right.mp httpDisjoint_5_9 h
  have nm6 : n ∉ httpLocationToolNames := List.disjoint_right.mp httpDisjoint_6_9 h
  have nm7 : n ∉ httpEmailISVToolNames := List.disjoint_right.mp httpDisjoint_7_9 h
  have nm8 : n ∉ httpSocialMediaToolNames := List.disjoint_right.mp httpDisjoint_8_9 h
  have nm10 : n ∉ httpObjectToolNames := httpDisjoint_9_10 h
  have nm11 : n ∉ httpAssociationToolNames := httpDisjoint_9_11 h
  have nm12 : n ∉ httpCustomFieldV2ToolNames := httpDisjoint_9_12 h
  have nm13 : n ∉ httpWorkflowToolNames := httpDisjoint_9_13 h
  have nm14 : n ∉ httpSurveyToolNames := httpDisjoint_9_14 h
  have nm15 : n ∉ httpStoreToolNames := httpDisjoint_9_15 h
  have nm16 : n ∉ httpProductsToolNames := httpDisjoint_9_16 h
  have nm17 : n ∉ httpPaymentsToolNames := httpDisjoint_9_17 h
  have nm18 : n ∉ httpInvoicesToolNames := httpDisjoint_9_18 h
  refine ⟨?_, GroupId.media, ?_, ?_⟩
  · simp [httpGroupLists, List.countP_cons, h, nm0, nm1, nm2, nm3, nm4, nm5, nm6, nm7, nm8, nm10, nm11, nm12, nm13, nm14, nm15, nm16, nm17, nm18]
  · simp [httpGroupOf, h, nm0, nm1, nm2, nm3, nm4, nm5, nm6, nm7, nm8, nm10, nm11, nm12, nm13, nm14, nm15, nm16, nm17, nm18]
  · rw [← groupOf_agree]
    simp [httpGroupOf, h, nm0, nm1, nm2, nm3, nm4, nm5, nm6, nm7, nm8, nm10, nm11, nm12, nm13, nm14, nm15, nm16, nm17, nm18]

theorem httpRoute_object {n : String} (h : n ∈ httpObjectToolNames) :
    httpGroupLists.countP (fun l => l.contains n) = 1 ∧
    ∃ g, httpGroupOf n = some g ∧ stdioGroupOf n = some g := by
  have nm0 : n ∉ httpContactToolNames := List.disjoint_right.mp httpDisjoint_0_10 h
  have nm1 : n ∉ httpConversationToolNames := List.disjoint_right.mp httpDisjoint_1_10 h
  have nm2 : n ∉ httpBlogToolNames := List.disjoint_right.mp httpDisjoint_2_10 h
  have nm3 : n ∉ httpOpportunityToolNames := List.disjoint_right.mp httpDisjoint_3_10 h
  have nm4 : n ∉ httpCalendarToolNames := List.disjoint_right.mp httpDisjoint_4_10 h
  have nm5 : n ∉ httpEmailToolNames := List.disjoint_right.mp httpDisjoint_5_10 h
  have nm6 : n ∉ httpLocationToolNames := List.disjoint_right.mp httpDisjoint_6_10 h
  have nm7 : n ∉ httpEmailISVToolNames := List.disjoint_right.mp httpDisjoint_7_10 h
  have nm8 : n ∉ httpSocialMediaToolNames := List.disjoint_right.mp httpDisjoint_8_10 h
  have nm9 : n ∉ httpMediaToolNames := List.disjoint_right.mp httpDisjoint_9_10 h
  have nm11 : n ∉ httpAssociationToolNames := httpDisjoint_10_11 h
  have nm12 : n ∉ httpCustomFieldV2ToolNames := httpDisjoint_10_12 h
  have nm13 : n ∉ httpWorkflowToolNames := httpDisjoint_10_13 h
  have nm14 : n ∉ httpSurveyToolNames := httpDisjoint_10_14 h
  have nm15 : n ∉ httpStoreToolNames := httpDisjoint_10_15 h
  have nm16 : n ∉ httpProductsToolNames := httpDisjoint_10_16 h
  have nm17 : n ∉ httpPaymentsToolNames := httpDisjoint_10_17 h
  have nm18 : n ∉ httpInvoicesToolNames := httpDisjoint_10_18 h
  refine ⟨?_, GroupId.object, ?_, ?_⟩
  · simp [httpGroupLists, List.countP_cons, h, nm0, nm1, nm2, nm3, nm4, nm5, nm6, nm7, nm8, nm9, nm11, nm12, nm13, nm14, nm15, nm16, nm17, nm18]
  · simp [httpGroupOf, h, nm0, nm1, nm2, nm3, nm4, nm5, nm6, nm7, nm8, nm9, nm11, nm12, nm13, nm14, nm15, nm16, nm17, nm18]
  · rw [← groupOf_agree]
    simp [httpGroupOf, h, nm0, nm1, nm2, nm3, nm4, nm5, nm6, nm7, nm8, nm9, nm11, nm12, nm13, nm14, nm15, nm16, nm17, nm18]

theorem httpRoute_association {n : String} (h : n ∈ httpAssociationToolNames) :
    httpGroupLists.countP (fun l => l.contains n) = 1 ∧
    ∃ g, httpGroupOf n = some g ∧ stdioGroupOf n = some g := by
  have nm0 : n ∉ httpContactToolNames := List.disjoint_right.mp httpDisjoint_0_11 h
  have nm1 : n ∉ httpConversationToolNames := List.disjoint_right.mp httpDisjoint_1_11 h
  have nm2 : n ∉ httpBlogToolNames := List.disjoint_right.mp httpDisjoint_2_11 h
  have nm3 : n ∉ httpOpportunityToolNames := List.disjoint_right.mp httpDisjoint_3_11 h
  have nm4 : n ∉ httpCalendarToolNames := List.disjoint_right.mp httpDisjoint_4_11 h
  have nm5 : n ∉ httpEmailToolNames := List.disjoint_right.mp httpDisjoint_5_11 h
  have nm6 : n ∉ httpLocationToolNames := List.disjoint_right.mp httpDisjoint_6_11 h
  have nm7 : n ∉ httpEmailISVToolNames := List.disjoint_right.mp httpDisjoint_7_11 h
  have nm8 : n ∉ httpSocialMediaToolNames := List.disjoint_right.mp httpDisjoint_8_11 h
  have nm9 : n ∉ httpMediaToolNames := List.disjoint_right.mp httpDisjoint_9_11 h
  have nm10 : n ∉ httpObjectToolNames := List.disjoint_right.mp httpDisjoint_10_11 h
  have nm12 : n ∉ httpCustomFieldV2ToolNames := httpDisjoint_11_12 h
  have nm13 : n ∉ httpWorkflowToolNames := httpDisjoint_11_13 h
  have nm14 : n ∉ httpSurveyToolNames := httpDisjoint_11_14 h
  have nm15 : n ∉ httpStoreToolNames := httpDisjoint_11_15 h
  have nm16 : n ∉ httpProductsToolNames := httpDisjoint_11_16 h
  have nm17 : n ∉ httpPaymentsToolNames := httpDisjoint_11_17 h
  have nm18 : n ∉ httpInvoicesToolNames := httpDisjoint_11_18 h
  refine ⟨?_, GroupId.association, ?_, ?_⟩
  · simp [httpGroupLists, List.countP_cons, h, nm0, nm1, nm2, nm3, nm4, nm5, nm6, nm7, nm8, nm9, nm10, nm12, nm13, nm14, nm15, nm16, nm17, nm18]
  · simp [httpGroupOf, h, nm0, nm1, nm2, nm3, nm4, nm5, nm6, nm7, nm8, nm9, nm10, nm12, nm13, nm14, nm15, nm16, nm17, nm18]
  · rw [← groupOf_agree]
    simp [httpGroupOf, h, nm0, nm1, nm2, nm3, nm4, nm5, nm6, nm7, nm8, nm9, nm10, nm12, nm13, nm14, nm15, nm16, nm17, nm18]

theorem httpRoute_customFieldV2 {n : String} (h : n ∈ httpCustomFieldV2ToolNames) :
    httpGroupLists.countP (fun l => l.contains n) = 1 ∧
    ∃ g, httpGroupOf n = some g ∧ stdioGroupOf n = some g := by
  have nm0 : n ∉ httpContactToolNames := List.disjoint_right.mp httpDisjoint_0_12 h
  have nm1 : n ∉ httpConversationToolNames := List.disjoint_right.mp httpDisjoint_1_12 h
  have nm2 : n ∉ httpBlogToolNames := List.disjoint_right.mp httpDisjoint_2_12 h
  have nm3 : n ∉ httpOpportunityToolNames := List.disjoint_right.mp httpDisjoint_3_12 h
  have nm4 : n ∉ httpCalendarToolNames := List.disjoint_right.mp httpDisjoint_4_12 h
  have nm5 : n ∉ httpEmailToolNames := List.disjoint_right.mp httpDisjoint_5_12 h
  have nm6 : n ∉ httpLocationToolNames := List.disjoint_right.mp httpDisjoint_6_12 h
  have nm7 : n ∉ httpEmailISVToolNames := List.disjoint_right.mp httpDisjoint_7_12 h
  have nm8 : n ∉ httpSocialMediaToolNames := List.disjoint_right.mp httpDisjoint_8_12 h
  have nm9 : n ∉ httpMediaToolNames := List.disjoint_right.mp httpDisjoint_9_12 h
  have nm10 : n ∉ httpObjectToolNames := List.disjoint_right.mp httpDisjoint_10_12 h
  have nm11 : n ∉ httpAssociationToolNames := List.disjoint_right.mp httpDisjoint_11_12 h
  have nm13 : n ∉ httpWorkflowToolNames := httpDisjoint_12_13 h
  have nm14 : n ∉ httpSurveyToolNames := httpDisjoint_12_14 h
  have nm15 : n ∉ httpStoreToolNames := httpDisjoint_12_15 h
  have nm16 : n ∉ httpProductsToolNames := httpDisjoint_12_16 h
  have nm17 : n ∉ httpPaymentsToolNames := httpDisjoint_12_17 h
  have nm18 : n ∉ httpInvoicesToolNames := httpDisjoint_12_18 h
  refine ⟨?_, GroupId.customFieldV2, ?_, ?_⟩
  · simp [httpGroupLists, List.countP_cons, h, nm0, nm1, nm2, nm3, nm4, nm5, nm6, nm7, nm8, nm9, nm10, nm11, nm13, nm14, nm15, nm16, nm17, nm18]
  · simp [httpGroupOf, h, nm0, nm1, nm2, nm3, nm4, nm5, nm6, nm7, nm8, nm9, nm10, nm11, nm13, nm14, nm15, nm16, nm17, nm18]
  · rw [← groupOf_agree]
    simp [httpGroupOf, h, nm0, nm1, nm2, nm3, nm4, nm5, nm6, nm7, nm8, nm9, nm10, nm11, nm13, nm14, nm15, nm16, nm17, nm18]

theorem httpRoute_workflow {n : String} (h : n ∈ httpWorkflowToolNames) :
    httpGroupLists.countP (fun l => l.contains n) = 1 ∧
    ∃ g, httpGroupOf n = some g ∧ stdioGroupOf n = some g := by
  have nm0 : n ∉ httpContactToolNames := List.disjoint_right.mp httpDisjoint_0_13 h
  have nm1 : n ∉ httpConversationToolNames := List.disjoint_right.mp httpDisjoint_1_13 h
  have nm2 : n ∉ httpBlogToolNames := List.disjoint_right.mp httpDisjoint_2_13 h
  have nm3 : n ∉ httpOpportunityToolNames := List.disjoint_right.mp httpDisjoint_3_13 h
  have nm4 : n ∉ httpCalendarToolNames := List.disjoint_right.mp httpDisjoint_4_13 h
  have nm5 : n ∉ httpEmailToolNames := List.disjoint_right.mp httpDisjoint_5_13 h
  have nm6 : n ∉ httpLocationToolNames := List.disjoint_right.mp httpDisjoint_6_13 h
  have nm7 : n ∉ httpEmailISVToolNames := List.disjoint_right.mp httpDisjoint_7_13 h
  have nm8 : n ∉ httpSocialMediaToolNames := List.disjoint_right.mp httpDisjoint_8_13 h
  have nm9 : n ∉ httpMediaToolNames := List.disjoint_right.mp httpDisjoint_9_13 h
  have nm10 : n ∉ httpObjectToolNames := List.disjoint_right.mp httpDisjoint_10_13 h
  have nm11 : n ∉ httpAssociationToolNames := List.disjoint_right.mp httpDisjoint_11_13 h
  have nm12 : n ∉ httpCustomFieldV2ToolNames := List.disjoint_right.mp httpDisjoint_12_13 h
  have nm14 : n ∉ httpSurveyToolNames := httpDisjoint_13_14 h
  have nm15 : n ∉ httpStoreToolNames := httpDisjoint_13_15 h
  have nm16 : n ∉ httpProductsToolNames := httpDisjoint_13_16 h
  have nm17 : n ∉ httpPaymentsToolNames := httpDisjoint_13_17 h
  have nm18 : n ∉ httpInvoicesToolNames := httpDisjoint_13_18 h
  refine ⟨?_, GroupId.workflow, ?_, ?_⟩
  · simp [httpGroupLists, List.countP_cons, h, nm0, nm1, nm2, nm3, nm4, nm5, nm6, nm7, nm8, nm9, nm10, nm11, nm12, nm14, nm15, nm16, nm17, nm18]
  · simp [httpGroupOf, h, nm0, nm1, nm2, nm3, nm4, nm5, nm6, nm7, nm8, nm9, nm10, nm11, nm12, nm14, nm15, nm16, nm17, nm18]
  · rw [← groupOf_agree]
    simp [httpGroupOf, h, nm0, nm1, nm2, nm3, nm4, nm5, nm6, nm7, nm8, nm9, nm10, nm11, nm12, nm14, nm15, nm16, nm17, nm18]

theorem httpRoute_survey {n : String} (h : n ∈ httpSurveyToolNames) :
    httpGroupLists.countP (fun l => l.contains n) = 1 ∧
    ∃ g, httpGroupOf n = some g ∧ stdioGroupOf n = some g := by
  have nm0 : n ∉ httpContactToolNames := List.disjoint_right.mp httpDisjoint_0_14 h
  have nm1 : n ∉ httpConversationToolNames := List.disjoint_right.mp httpDisjoint_1_14 h
  have nm2 : n ∉ httpBlogToolNames := List.disjoint_right.mp httpDisjoint_2_14 h
  have nm3 : n ∉ httpOpportunityToolNames := List.disjoint_right.mp httpDisjoint_3_14 h
  have nm4 : n ∉ httpCalendarToolNames := List.disjoint_right.mp httpDisjoint_4_14 h
  have nm5 : n ∉ httpEmailToolNames := List.disjoint_right.mp httpDisjoint_5_14 h
  have nm6 : n ∉ httpLocationToolNames := List.disjoint_right.mp httpDisjoint_6_14 h
  have nm7 : n ∉ httpEmailISVToolNames := List.disjoint_right.mp httpDisjoint_7_14 h
  have nm8 : n ∉ httpSocialMediaToolNames := List.disjoint_right.mp httpDisjoint_8_14 h
  have nm9 : n ∉ httpMediaToolNames := List.disjoint_right.mp httpDisjoint_9_14 h
  have nm10 : n ∉ httpObjectToolNames := List.disjoint_right.mp httpDisjoint_10_14 h
  have nm11 : n ∉ httpAssociationToolNames := List.disjoint_right.mp httpDisjoint_11_14 h
  have nm12 : n ∉ httpCustomFieldV2ToolNames := List.disjoint_right.mp httpDisjoint_12_14 h
  have nm13 : n ∉ httpWorkflowToolNames := List.disjoint_right.mp httpDisjoint_13_14 h
  have nm15 : n ∉ httpStoreToolNames := httpDisjoint_14_15 h
  have nm16 : n ∉ httpProductsToolNames := httpDisjoint_14_16 h
  have nm17 : n ∉ httpPaymentsToolNames := httpDisjoint_14_17 h
  have nm18 : n ∉ httpInvoicesToolNames := httpDisjoint_14_18 h
  refine ⟨?_, GroupId.survey, ?_, ?_⟩
  · simp [httpGroupLists, List.countP_cons, h, nm0, nm1, nm2, nm3, nm4, nm5, nm6, nm7, nm8, nm9, nm10, nm11, nm12, nm13, nm15, nm16, nm17, nm18]
  · simp [httpGroupOf, h, nm0, nm1, nm2, nm3, nm4, nm5, nm6, nm7, nm8, nm9, nm10, nm11, nm12, nm13, nm15, nm16, nm17, nm18]
  · rw [← groupOf_agree]
    simp [httpGroupOf, h, nm0, nm1, nm2, nm3, nm4, nm5, nm6, nm7, nm8, nm9, nm10, nm11, nm12, nm13, nm15, nm16, nm17, nm18]

theorem httpRoute_store {n : String} (h : n ∈ httpStoreToolNames) :
    httpGroupLists.countP (fun l => l.contains n) = 1 ∧
    ∃ g, httpGroupOf n = some g ∧ stdioGroupOf n = some g := by
  have nm0 : n ∉ httpContactToolNames := List.disjoint_right.mp httpDisjoint_0_15 h
  have nm1 : n ∉ httpConversationToolNames := List.disjoint_right.mp httpDisjoint_1_15 h
  have nm2 : n ∉ httpBlogToolNames := List.disjoint_right.mp httpDisjoint_2_15 h
  have nm3 : n ∉ httpOpportunityToolNames := List.disjoint_right.mp httpDisjoint_3_15 h
  have nm4 : n ∉ httpCalendarToolNames := List.disjoint_right.mp httpDisjoint_4_15 h
  have nm5 : n ∉ httpEmailToolNames := List.disjoint_right.mp httpDisjoint_5_15 h
  have nm6 : n ∉ httpLocationToolNames := List.disjoint_right.mp httpDisjoint_6_15 h
  have nm7 : n ∉ httpEmailISVToolNames := List.disjoint_right.mp httpDisjoint_7_15 h
  have nm8 : n ∉ httpSocialMediaToolNames := List.disjoint_right.mp httpDisjoint_8_15 h
  have nm9 : n ∉ httpMediaToolNames := List.disjoint_right.mp httpDisjoint_9_15 h
  have nm10 : n ∉ httpObjectToolNames := List.disjoint_right.mp httpDisjoint_10_15 h
  have nm11 : n ∉ httpAssociationToolNames := List.disjoint_right.mp httpDisjoint_11_15 h
  have nm12 : n ∉ httpCustomFieldV2ToolNames := List.disjoint_right.mp httpDisjoint_12_15 h
  have nm13 : n ∉ httpWorkflowToolNames := List.disjoint_right.mp httpDisjoint_13_15 h
  have nm14 : n ∉ httpSurveyToolNames := List.disjoint_right.mp httpDisjoint_14_15 h
  have nm16 : n ∉ httpProductsToolNames := httpDisjoint_15_16 h
  have nm17 : n ∉ httpPaymentsToolNames := httpDisjoint_15_17 h
  have nm18 : n ∉ httpInvoicesToolNames := httpDisjoint_15_18 h
  refine ⟨?_, GroupId.store, ?_, ?_⟩
  · simp [httpGroupLists, List.countP_cons, h, nm0, nm1, nm2, nm3, nm4, nm5, nm6, nm7, nm8, nm9, nm10, nm11, nm12, nm13, nm14, nm16, nm17, nm18]
  · simp [httpGroupOf, h, nm0, nm1, nm2, nm3, nm4, nm5, nm6, nm7, nm8, nm9, nm10, nm11, nm12, nm13, nm14, nm16, nm17, nm18]
  · rw [← groupOf_agree]
    simp [httpGroupOf, h, nm0, nm1, nm2, nm3, nm4, nm5, nm6, nm7, nm8, nm9, nm10, nm11, nm12, nm13, nm14, nm16, nm17, nm18]

theorem httpRoute_products {n : String} (h : n ∈ httpProductsToolNames) :
    httpGroupLists.countP (fun l => l.contains n) = 1 ∧
    ∃ g, httpGroupOf n = some g ∧ stdioGroupOf n = some g := by
  have nm0 : n ∉ httpContactToolNames := List.disjoint_right.mp httpDisjoint_0_16 h
  have nm1 : n ∉ httpConversationToolNames := List.disjoint_right.mp httpDisjoint_1_16 h
  have nm2 : n ∉ httpBlogToolNames := List.disjoint_right.mp httpDisjoint_2_16 h
  have nm3 : n ∉ httpOpportunityToolNames := List.disjoint_right.mp httpDisjoint_3_16 h
  have nm4 : n ∉ httpCalendarToolNames := List.disjoint_right.mp httpDisjoint_4_16 h
  have nm5 : n ∉ httpEmailToolNames := List.disjoint_right.mp httpDisjoint_5_16 h
  have nm6 : n ∉ httpLocationToolNames := List.disjoint_right.mp httpDisjoint_6_16 h
  have nm7 : n ∉ httpEmailISVToolNames := List.disjoint_right.mp httpDisjoint_7_16 h
  have nm8 : n ∉ httpSocialMediaToolNames := List.disjoint_right.mp httpDisjoint_8_16 h
  have nm9 : n ∉ httpMediaToolNames := List.disjoint_right.mp httpDisjoint_9_16 h
  have nm10 : n ∉ httpObjectToolNames := List.disjoint_right.mp httpDisjoint_10_16 h
  have nm11 : n ∉ httpAssociationToolNames := List.disjoint_right.mp httpDisjoint_11_16 h
  have nm12 : n ∉ httpCustomFieldV2ToolNames := List.disjoint_right.mp httpDisjoint_12_16 h
  have nm13 : n ∉ httpWorkflowToolNames := List.disjoint_right.mp httpDisjoint_13_16 h
  have nm14 : n ∉ httpSurveyToolNames := List.disjoint_right.mp httpDisjoint_14_16 h
  have nm15 : n ∉ httpStoreToolNames := List.disjoint_right.mp httpDisjoint_15_16 h
  have nm17 : n ∉ httpPaymentsToolNames := httpDisjoint_16_17 h
  have nm18 : n ∉ httpInvoicesToolNames := httpDisjoint_16_18 h
  refine ⟨?_, GroupId.products, ?_, ?_⟩
  · simp [httpGroupLists, List.countP_cons, h, nm0, nm1, nm2, nm3, nm4, nm5, nm6, nm7, nm8, nm9, nm10, nm11, nm12, nm13, nm14, nm15, nm17, nm18]
  · simp [httpGroupOf, h, nm0, nm1, nm2, nm3, nm4, nm5, nm6, nm7, nm8, nm9, nm10, nm11, nm12, nm13, nm14, nm15, nm17, nm18]
  · rw [← groupOf_agree]
    simp [httpGroupOf, h, nm0, nm1, nm2, nm3, nm4, nm5, nm6, nm7, nm8, nm9, nm10, nm11, nm12, nm13, nm14, nm15, nm17, nm18]

theorem httpRoute_payments {n : String} (h : n ∈ httpPaymentsToolNames) :
    httpGroupLists.countP (fun l => l.contains n) = 1 ∧
    ∃ g, httpGroupOf n = some g ∧ stdioGroupOf n = some g := by
  have nm0 : n ∉ httpContactToolNames := List.disjoint_right.mp httpDisjoint_0_17 h
  have nm1 : n ∉ httpConversationToolNames := List.disjoint_right.mp httpDisjoint_1_17 h
  have nm2 : n ∉ httpBlogToolNames := List.disjoint_right.mp httpDisjoint_2_17 h
  have nm3 : n ∉ httpOpportunityToolNames := List.disjoint_right.mp httpDisjoint_3_17 h
  have nm4 : n ∉ httpCalendarToolNames := List.disjoint_right.mp httpDisjoint_4_17 h
  have nm5 : n ∉ httpEmailToolNames := List.disjoint_right.mp httpDisjoint_5_17 h
  have nm6 : n ∉ httpLocationToolNames := List.disjoint_right.mp httpDisjoint_6_17 h
  have nm7 : n ∉ httpEmailISVToolNames := List.disjoint_right.mp httpDisjoint_7_17 h
  have nm8 : n ∉ httpSocialMediaToolNames := List.disjoint_right.mp httpDisjoint_8_17 h
  have nm9 : n ∉ httpMediaToolNames := List.disjoint_right.mp httpDisjoint_9_17 h
  have nm10 : n ∉ httpObjectToolNames := List.disjoint_right.mp httpDisjoint_10_17 h
  have nm11 : n ∉ httpAssociationToolNames := List.disjoint_right.mp httpDisjoint_11_17 h
  have nm12 : n ∉ httpCustomFieldV2ToolNames := List.disjoint_right.mp httpDisjoint_12_17 h
  have nm13 : n ∉ httpWorkflowToolNames := List.disjoint_right.mp httpDisjoint_13_17 h
  have nm14 : n ∉ httpSurveyToolNames := List.disjoint_right.mp httpDisjoint_14_17 h
  have nm15 : n ∉ httpStoreToolNames := List.disjoint_right.mp httpDisjoint_15_17 h
  have nm16 : n ∉ httpProductsToolNames := List.disjoint_right.mp httpDisjoint_16_17 h
  have nm18 : n ∉ httpInvoicesToolNames := httpDisjoint_17_18 h
  refine ⟨?_, GroupId.payments, ?_, ?_⟩
  · simp [httpGroupLists, List.countP_cons, h, nm0, nm1, nm2, nm3, nm4, nm5, nm6, nm7, nm8, nm9, nm10, nm11, nm12, nm13, nm14, nm15, nm16, nm18]
  · simp [httpGroupOf, h, nm0, nm1, nm2, nm3, nm4, nm5, nm6, nm7, nm8, nm9, nm10, nm11, nm12, nm13, nm14, nm15, nm16, nm18]
  · rw [← groupOf_agree]
    simp [httpGroupOf, h, nm0, nm1, nm2, nm3, nm4, nm5, nm6, nm7, nm8, nm9, nm10, nm11, nm12, nm13, nm14, nm15, nm16, nm18]

theorem httpRoute_invoices {n : String} (h : n ∈ httpInvoicesToolNames) :
    httpGroupLists.countP (fun l => l.contains n) = 1 ∧
    ∃ g, httpGroupOf n = some g ∧ stdioGroupOf n = some g := by
  have nm0 : n ∉ httpContactToolNames := List.disjoint_right.mp httpDisjoint_0_18 h
  have nm1 : n ∉ httpConversationToolNames := List.disjoint_right.mp httpDisjoint_1_18 h
  have nm2 : n ∉ httpBlogToolNames := List.disjoint_right.mp httpDisjoint_2_18 h
  have nm3 : n ∉ httpOpportunityToolNames := List.disjoint_right.mp httpDisjoint_3_18 h
  have nm4 : n ∉ httpCalendarToolNames := List.disjoint_right.mp httpDisjoint_4_18 h
  have nm5 : n ∉ httpEmailToolNames := List.disjoint_right.mp httpDisjoint_5_18 h
  have nm6 : n ∉ httpLocationToolNames := List.disjoint_right.mp httpDisjoint_6_18 h
  have nm7 : n ∉ httpEmailISVToolNames := List.disjoint_right.mp httpDisjoint_7_18 h
  have nm8 : n ∉ httpSocialMediaToolNames := List.disjoint_right.mp httpDisjoint_8_18 h
  have nm9 : n ∉ httpMediaToolNames := List.disjoint_right.mp httpDisjoint_9_18 h
  have nm10 : n ∉ httpObjectToolNames := List.disjoint_right.mp httpDisjoint_10_18 h
  have nm11 : n ∉ httpAssociationToolNames := List.disjoint_right.mp httpDisjoint_11_18 h
  have nm12 : n ∉ httpCustomFieldV2ToolNames := List.disjoint_right.mp httpDisjoint_12_18 h
  have nm13 : n ∉ httpWorkflowToolNames := List.disjoint_right.mp httpDisjoint_13_18 h
  have nm14 : n ∉ httpSurveyToolNames := List.disjoint_right.mp httpDisjoint_14_18 h
  have nm15 : n ∉ httpStoreToolNames := List.disjoint_right.mp httpDisjoint_15_18 h
  have nm16 : n ∉ httpProductsToolNames := List.disjoint_right.mp httpDisjoint_16_18 h
  have nm17 : n ∉ httpPaymentsToolNames := List.disjoint_right.mp httpDisjoint_17_18 h
  refine ⟨?_, GroupId.invoices, ?_, ?_⟩
  · simp [httpGroupLists, List.countP_cons, h, nm0, nm1, nm2, nm3, nm4, nm5, nm6, nm7, nm8, nm9, nm10, nm11, nm12, nm13, nm14, nm15, nm16, nm17]
  · simp [httpGroupOf, h, nm0, nm1, nm2, nm3, nm4, nm5, nm6, nm7, nm8, nm9, nm10, nm11, nm12, nm13, nm14, nm15, nm16, nm17]
  · rw [← groupOf_agree]
    simp [httpGroupOf, h, nm0, nm1, nm2, nm3, nm4, nm5, nm6, nm7, nm8, nm9, nm10, nm11, nm12, nm13, nm14, nm15, nm16, nm17]

/-- The modelled catalog has no duplicate names: each group list is
duplicate-free and the lists are pairwise disjoint. -/
theorem httpCatalogNames_nodup : httpCatalogNames.Nodup := by
  unfold httpCatalogNames
  rw [List.nodup_flatten]
  constructor
  · intro l hl
    simp only [httpGroupLists, List.mem_cons, List.not_mem_nil, or_false] at hl
    rcases hl with rfl | rfl | rfl | rfl | rfl | rfl | rfl | rfl | rfl | rfl | rfl | rfl | rfl | rfl | rfl | rfl | rfl | rfl | rfl
    all_goals decide
  · unfold httpGroupLists
    refine List.Pairwise.cons ?_ ?_
    · intro l hl
      simp only [List.mem_cons, List.not_mem_nil, or_false] at hl
      rcases hl with rfl | rfl | rfl | rfl | rfl | rfl | rfl | rfl | rfl | rfl | rfl | rfl | rfl | rfl | rfl | rfl | rfl | rfl
      exacts [httpDisjoint_0_1, httpDisjoint_0_2, httpDisjoint_0_3, httpDisjoint_0_4, httpDisjoint_0_5, httpDisjoint_0_6, httpDisjoint_0_7, httpDisjoint_0_8, httpDisjoint_0_9, httpDisjoint_0_10, httpDisjoint_0_11, httpDisjoint_0_12, httpDisjoint_0_13, httpDisjoint_0_14, httpDisjoint_0_15, httpDisjoint_0_16, httpDisjoint_0_17, httpDisjoint_0_18]
    refine List.Pairwise.cons ?_ ?_
    · intro l hl
      simp only [List.mem_cons, List.not_mem_nil, or_false] at hl
      rcases hl with rfl | rfl | rfl | rfl | rfl | rfl | rfl | rfl | rfl | rfl | rfl | rfl | rfl | rfl | rfl | rfl | rfl
      exacts [httpDisjoint_1_2, httpDisjoint_1_3, httpDisjoint_1_4, httpDisjoint_1_5, httpDisjoint_1_6, httpDisjoint_1_7, httpDisjoint_1_8, httpDisjoint_1_9, httpDisjoint_1_10, httpDisjoint_1_11, httpDisjoint_1_12, httpDisjoint_1_13, httpDisjoint_1_14, httpDisjoint_1_15, httpDisjoint_1_16, httpDisjoint_1_17, httpDisjoint_1_18]
    refine List.Pairwise.cons ?_ ?_
    · intro l hl
      simp only [List.mem_cons, List.not_mem_nil, or_false] at hl
      rcases hl with rfl | rfl | rfl | rfl | rfl | rfl | rfl | rfl | rfl | rfl | rfl | rfl | rfl | rfl | rfl | rfl
      exacts [httpDisjoint_2_3, httpDisjoint_2_4, httpDisjoint_2_5, httpDisjoint_2_6, httpDisjoint_2_7, httpDisjoint_2_8, httpDisjoint_2_9, httpDisjoint_2_10, httpDisjoint_2_11, httpDisjoint_2_12, httpDisjoint_2_13, httpDisjoint_2_14, httpDisjoint_2_15, httpDisjoint_2_16, httpDisjoint_2_17, httpDisjoint_2_18]
    refine List.Pairwise.cons ?_ ?_
    · intro l hl
      simp only [List.mem_cons, List.not_mem_nil, or_false] at hl
      rcases hl with rfl | rfl | rfl | rfl | rfl | rfl | rfl | rfl | rfl | rfl | rfl | rfl | rfl | rfl | rfl
      exacts [httpDisjoint_3_4, httpDisjoint_3_5, httpDisjoint_3_6, httpDisjoint_3_7, httpDisjoint_3_8, httpDisjoint_3_9, httpDisjoint_3_10, httpDisjoint_3_11, httpDisjoint_3_12, httpDisjoint_3_13, httpDisjoint_3_14, httpDisjoint_3_15, httpDisjoint_3_16, httpDisjoint_3_17, httpDisjoint_3_18]
    refine List.Pairwise.cons ?_ ?_
    · intro l hl
      simp only [List.mem_cons, List.not_mem_nil, or_false] at hl
      rcases hl with rfl | rfl | rfl | rfl | rfl | rfl | rfl | rfl | rfl | rfl | rfl | rfl | rfl | rfl
      exacts [httpDisjoint_4_5, httpDisjoint_4_6, httpDisjoint_4_7, httpDisjoint_4_8, httpDisjoint_4_9, httpDisjoint_4_10, httpDisjoint_4_11, httpDisjoint_4_12, httpDisjoint_4_13, httpDisjoint_4_14, httpDisjoint_4_15, httpDisjoint_4_16, httpDisjoint_4_17, httpDisjoint_4_18]
    refine List.Pairwise.cons ?_ ?_
    · intro l hl
      simp only [List.mem_cons, List.not_mem_nil, or_false] at hl
      rcases hl with rfl | rfl | rfl | rfl | rfl | rfl | rfl | rfl | rfl | rfl | rfl | rfl | rfl
      exacts [httpDisjoint_5_6, httpDisjoint_5_7, httpDisjoint_5_8, httpDisjoint_5_9, httpDisjoint_5_10, httpDisjoint_5_11, httpDisjoint_5_12, httpDisjoint_5_13, httpDisjoint_5_14, httpDisjoint_5_15, httpDisjoint_5_16, httpDisjoint_5_17, httpDisjoint_5_18]
    refine List.Pairwise.cons ?_ ?_
    · intro l hl
      simp only [List.mem_cons, List.not_mem_nil, or_false] at hl
      rcases hl with rfl | rfl | rfl | rfl | rfl | rfl | rfl | rfl | rfl | rfl | rfl | rfl
      exacts [httpDisjoint_6_7, httpDisjoint_6_8, httpDisjoint_6_9, httpDisjoint_6_10, httpDisjoint_6_11, httpDisjoint_6_12, httpDisjoint_6_13, httpDisjoint_6_14, httpDisjoint_6_15, httpDisjoint_6_16, httpDisjoint_6_17, httpDisjoint_6_18]
    refine List.Pairwise.cons ?_ ?_
    · intro l hl
      simp only [List.mem_cons, List.not_mem_nil, or_false] at hl
      rcases hl with rfl | rfl | rfl | rfl | rfl | rfl | rfl | rfl | rfl | rfl | rfl
      exacts [httpDisjoint_7_8, httpDisjoint_7_9, httpDisjoint_7_10, httpDisjoint_7_11, httpDisjoint_7_12, httpDisjoint_7_13, httpDisjoint_7_14, httpDisjoint_7_15, httpDisjoint_7_16, httpDisjoint_7_17, httpDisjoint_7_18]
    refine List.Pairwise.cons ?_ ?_
    · intro l hl
      simp only [List.mem_cons, List.not_mem_nil, or_false] at hl
      rcases hl with rfl | rfl | rfl | rfl | rfl | rfl | rfl | rfl | rfl | rfl
      exacts [httpDisjoint_8_9, httpDisjoint_8_10, httpDisjoint_8_11, httpDisjoint_8_12, httpDisjoint_8_13, httpDisjoint_8_14, httpDisjoint_8_15, httpDisjoint_8_16, httpDisjoint_8_17, httpDisjoint_8_18]
    refine List.Pairwise.cons ?_ ?_
    · intro l hl
      simp only [List.mem_cons, List.not_mem_nil, or_false] at hl
      rcases hl with rfl | rfl | rfl | rfl | rfl | rfl | rfl | rfl | rfl
      exacts [httpDisjoint_9_10, httpDisjoint_9_11, httpDisjoint_9_12, httpDisjoint_9_13, httpDisjoint_9_14, httpDisjoint_9_15, httpDisjoint_9_16, httpDisjoint_9_17, httpDisjoint_9_18]
    refine List.Pairwise.cons ?_ ?_
    · intro l hl
      simp only [List.mem_cons, List.not_mem_nil, or_false] at hl
      rcases hl with rfl | rfl | rfl | rfl | rfl | rfl | rfl | rfl
      exacts [httpDisjoint_10_11, httpDisjoint_10_12, httpDisjoint_10_13, httpDisjoint_10_14, httpDisjoint_10_15, httpDisjoint_10_16, httpDisjoint_10_17, httpDisjoint_10_18]
    refine List.Pairwise.cons ?_ ?_
    · intro l hl
      simp only [List.mem_cons, List.not_mem_nil, or_false] at hl
      rcases hl with rfl | rfl | rfl | rfl | rfl | rfl | rfl
      exacts [httpDisjoint_11_12, httpDisjoint_11_13, httpDisjoint_11_14, httpDisjoint_11_15, httpDisjoint_11_16, httpDisjoint_11_17, httpDisjoint_11_18]
    refine List.Pairwise.cons ?_ ?_
    · intro l hl
      simp only [List.mem_cons, List.not_mem_nil, or_false] at hl
      rcases hl with rfl | rfl | rfl | rfl | rfl | rfl
      exacts [httpDisjoint_12_13, httpDisjoint_12_14, httpDisjoint_12_15, httpDisjoint_12_16, httpDisjoint_12_17, httpDisjoint_12_18]
    refine List.Pairwise.cons ?_ ?_
    · intro l hl
      simp only [List.mem_cons, List.not_mem_nil, or_false] at hl
      rcases hl with rfl | rfl | rfl | rfl | rfl
      exacts [httpDisjoint_13_14, httpDisjoint_13_15, httpDisjoint_13_16, httpDisjoint_13_17, httpDisjoint_13_18]
    refine List.Pairwise.cons ?_ ?_
    · intro l hl
      simp only [List.mem_cons, List.not_mem_nil, or_false] at hl
      rcases hl with rfl | rfl | rfl | rfl
      exacts [httpDisjoint_14_15, httpDisjoint_14_16, httpDisjoint_14_17, httpDisjoint_14_18]
    refine List.Pairwise.cons ?_ ?_
    · intro l hl
      simp only [List.mem_cons, List.not_mem_nil, or_false] at hl
      rcases hl with rfl | rfl | rfl
      exacts [httpDisjoint_15_16, httpDisjoint_15_17, httpDisjoint_15_18]
    refine List.Pairwise.cons ?_ ?_
    · intro l hl
      simp only [List.mem_cons, List.not_mem_nil, or_false] at hl
      rcases hl with rfl | rfl
      exacts [httpDisjoint_16_17, httpDisjoint_16_18]
    refine List.Pairwise.cons ?_ ?_
    · intro l hl
      simp only [List.mem_cons, List.not_mem_nil, or_false] at hl
      rcases hl with rfl
      exact httpDisjoint_17_18
    refine List.Pairwise.cons ?_ ?_
    · intro l hl
      exact absurd hl (List.not_mem_nil l)
    exact List.Pairwise.nil

/-- The classifier's per-tool result is always one of the nine labels. -/
theorem categoryOf_mem_labels (n : String) : categoryOf n ∈ categoryLabels := by
  simp only [categoryOf]
  split_ifs <;> simp [categoryLabels]

/-- The nine labels are pairwise distinct. -/
theorem categoryLabels_nodup : categoryLabels.Nodup := by decide

/-- A name is in a bucket exactly when some input tool of that category
carries it. -/
theorem mem_bucketNames {tools : List ToolDefinition} {label s : String} :
    s ∈ bucketNames tools label ↔
      ∃ t ∈ tools, categoryOf t.name = label ∧ t.name = s := by
  simp only [bucketNames, List.mem_map, List.mem_filter, beq_iff_eq]
  constructor
  · rintro ⟨t, ⟨ht, hc⟩, hn⟩
    exact ⟨t, ht, hc, hn⟩
  · rintro ⟨t, ht, hc, hn⟩
    exact ⟨t, ⟨ht, hc⟩, hn⟩

/-- Sorting preserves membership. -/
theorem mem_sortStrings {l : List String} {s : String} :
    s ∈ sortStrings l ↔ s ∈ l :=
  (List.perm_insertionSort _ l).mem_iff

/-- Sorting a nonempty list yields a nonempty list. -/
theorem sortStrings_ne_nil {l : List String} (h : l ≠ []) : sortStrings l ≠ [] := by
  intro hnil
  apply h
  have hp := List.perm_insertionSort (fun a b : String => a ≤ b) l
  rw [sortStrings] at hnil
  rw [hnil] at hp
  exact hp.symm.eq_nil

/-- Sorting sorts. -/
theorem sortStrings_sorted (l : List String) :
    (sortStrings l).Sorted (fun a b => a ≤ b) :=
  List.sorted_insertionSort _ l

/-- The classifier's output entries are exactly the nonempty buckets, with
their label, size and sorted members. -/
theorem mem_categorizeTools {tools : List ToolDefinition} {c : Category} :
    c ∈ categorizeTools tools ↔
      ∃ label ∈ categoryLabels, bucketNames tools label ≠ [] ∧
        c = ⟨label, (bucketNames tools label).length,
              sortStrings (bucketNames tools label)⟩ := by
  simp only [categorizeTools, List.mem_map, List.mem_filter, Bool.not_eq_true',
    List.isEmpty_eq_false]
  constructor
  · rintro ⟨a, ⟨⟨label, hl, rfl⟩, hne⟩, rfl⟩
    exact ⟨label, hl, hne, rfl⟩
  · rintro ⟨label, hl, hne, rfl⟩
    exact ⟨⟨label, bucketNames tools label⟩, ⟨⟨label, hl, rfl⟩, hne⟩, rfl⟩

/-- With duplicate-free names, looking a listed tool's name up with `find`
returns that very tool. -/
theorem find?_name_get {allTools : List ToolDefinition}
    (h : (allTools.map (fun t => t.name)).Nodup)
    (i : Nat) (hi : i < allTools.length) :
    allTools.find? (fun t => t.name == allTools[i].name) = some allTools[i] := by
  have hgm : allTools[i] ∈ allTools := List.getElem_mem hi
  have hsome : (allTools.find? (fun t => t.name == allTools[i].name)).isSome := by
    rw [List.find?_isSome]
    exact ⟨allTools[i], hgm, by simp⟩
  obtain ⟨t', ht'⟩ := Option.isSome_iff_exists.mp hsome
  have hmem : t' ∈ allTools := List.mem_of_find?_eq_some ht'
  have hname : t'.name = allTools[i].name := by
    have hb := List.find?_some ht'
    exact beq_iff_eq.mp hb
  have : t' = allTools[i] := List.inj_on_of_nodup_map h hmem hgm hname
  rw [ht', this]

/-! The claims. -/

/-- C1 (corrected): dispatching a name absent from the catalog is
side-effect-free - the outcome does not depend on any group's behaviour or
on the arguments - and fails with an error naming the tool
(`Unknown tool: n`); but on the HTTP transport this surfaces as an
InternalError-class protocol error (InvalidRequest only in the anomalous
case that the name itself contains "404"), not as an unknown/invalid-request
class error, and on the stdio transport the error propagates out of the
handler untranslated. -/
theorem C1_unknown_tool_rejection (exec exec' : ExecBehavior) (name : String)
    (args args' : Option JSObj) (h : httpGroupOf name = none) :
    httpDispatch exec name args = httpDispatch exec' name args' ∧
    httpDispatch exec name args =
      .error ⟨if strContains ("Unknown tool: " ++ name) "404" then .invalidRequest
              else .internalError,
              "Tool execution failed: Error: Unknown tool: " ++ name⟩ ∧
    stdioDispatch exec name args = .raw ("Unknown tool: " ++ name) := by
  have h' : stdioGroupOf name = none := by rw [← groupOf_agree]; exact h
  refine ⟨?_, ?_, ?_⟩ <;> simp [httpDispatch, stdioDispatch, h, h']

/-- C1 witness: the unknown name "delete_contact_permanently" concretely. -/
theorem C1_unknown_tool_rejection_witness :
    httpGroupOf "delete_contact_permanently" = none ∧
    httpDispatch noopExec "delete_contact_permanently" none =
      .error ⟨ErrorCode.internalError,
        "Tool execution failed: Error: Unknown tool: delete_contact_permanently"⟩ := by
  have h : httpGroupOf "delete_contact_permanently" = none := by rfl
  refine ⟨h, ?_⟩
  have hx := (C1_unknown_tool_rejection noopExec noopExec "delete_contact_permanently"
    none none h).2.1
  rw [hx]
  rfl

/-- C1 counterexample: as stated the claim is false - the concrete unknown
name from the spec's own scenario yields an InternalError-class protocol
error, not an unknown/invalid-request class one. -/
theorem C1_counterexample :
    httpDispatch noopExec "delete_contact_permanently" (some []) =
      .error ⟨ErrorCode.internalError,
        "Tool execution failed: Error: Unknown tool: delete_contact_permanently"⟩ ∧
    ErrorCode.internalError ≠ ErrorCode.invalidRequest := by
  exact ⟨rfl, by decide⟩

/-- C2 (corrected): on the HTTP transport every failure thrown by a group's
execute is caught at the dispatch boundary and translated - a message
containing "404" becomes an InvalidRequest-class error, every other message
an InternalError-class error carrying the underlying message; on the stdio
transport the same failure propagates out of the handler untranslated. -/
theorem C2_error_translation (exec : ExecBehavior) (name : String) (g : GroupId)
    (args : Option JSObj) (msg : String)
    (hg : httpGroupOf name = some g)
    (hx : exec g name (defaultArgs args) = .error msg) :
    httpDispatch exec name args =
      .error ⟨if strContains msg "404" then .invalidRequest else .internalError,
              "Tool execution failed: Error: " ++ msg⟩ ∧
    stdioDispatch exec name args = .raw msg := by
  have hg' : stdioGroupOf name = some g := by rw [← groupOf_agree]; exact hg
  exact ⟨by simp [httpDispatch, hg, hx], by simp [stdioDispatch, hg', hx]⟩

/-- C2 witness: a concrete backend 404 failure on the conversation tool
"send_sms". -/
theorem C2_error_translation_witness :
    httpDispatch exec404 "send_sms" none =
      .error ⟨if strContains "Request failed with status code 404" "404"
              then ErrorCode.invalidRequest else ErrorCode.internalError,
              "Tool execution failed: Error: " ++ "Request failed with status code 404"⟩ ∧
    stdioDispatch exec404 "send_sms" none = .raw "Request failed with status code 404" :=
  C2_error_translation exec404 "send_sms" GroupId.conversation none
    "Request failed with status code 404" (by rfl) (by rfl)

/-- C2 counterexample: the claim is false on the stdio transport - the same
404-indicating failure that HTTP translates to an InvalidRequest-class error
leaves the stdio handler as the raw thrown error, translated into neither
protocol error class. -/
theorem C2_counterexample :
    stdioDispatch exec404 "create_contact" none =
      .raw "Request failed with status code 404" ∧
    httpDispatch exec404 "create_contact" none =
      .error ⟨ErrorCode.invalidRequest,
        "Tool execution failed: Error: Request failed with status code 404"⟩ :=
  ⟨rfl, rfl⟩

/-- C3 (confirmed over the spec-modelled catalog): every name of the
aggregated catalog is claimed by exactly one of the 19 per-group name lists,
and both transports' routing chains resolve it to a group - the unknown-tool
branch is never taken for a catalog name. -/
theorem C3_catalog_names_route_uniquely (n : String) (h : n ∈ httpCatalogNames) :
    httpGroupLists.countP (fun l => l.contains n) = 1 ∧
    ∃ g, httpGroupOf n = some g ∧ stdioGroupOf n = some g := by
  unfold httpCatalogNames at h
  rw [List.mem_flatten] at h
  obtain ⟨l, hl, hn⟩ := h
  simp only [httpGroupLists, List.mem_cons, List.not_mem_nil, or_false] at hl
  rcases hl with rfl | rfl | rfl | rfl | rfl | rfl | rfl | rfl | rfl | rfl | rfl | rfl | rfl | rfl | rfl | rfl | rfl | rfl | rfl
  · exact httpRoute_contact hn
  · exact httpRoute_conversation hn
  · exact httpRoute_blog hn
  · exact httpRoute_opportunity hn
  · exact httpRoute_calendar hn
  · exact httpRoute_email hn
  · exact httpRoute_location hn
  · exact httpRoute_emailISV hn
  · exact httpRoute_socialMedia hn
  · exact httpRoute_media hn
  · exact httpRoute_object hn
  · exact httpRoute_association hn
  · exact httpRoute_customFieldV2 hn
  · exact httpRoute_workflow hn
  · exact httpRoute_survey hn
  · exact httpRoute_store hn
  · exact httpRoute_products hn
  · exact httpRoute_payments hn
  · exact httpRoute_invoices hn

/-- C3 witness: the catalog name "create_contact" concretely. -/
theorem C3_catalog_names_route_uniquely_witness :
    "create_contact" ∈ httpCatalogNames ∧
    (httpGroupLists.countP (fun l => l.contains "create_contact") = 1 ∧
     ∃ g, httpGroupOf "create_contact" = some g ∧
       stdioGroupOf "create_contact" = some g) :=
  ⟨by decide, C3_catalog_names_route_uniquely "create_contact" (by decide)⟩

/-- C4 (corrected): catalog aggregation performs no duplicate check and
cannot fail - the aggregated catalog is the plain concatenation, so each
name's multiplicity in the catalog is the sum of its per-group
multiplicities; two groups contributing the same name both land in the
catalog, and no `DuplicateToolNameError` exists anywhere in the source. -/
theorem C4_duplicate_names_concatenated (groupDefs : List (List ToolDefinition))
    (name : String) :
    List.count name ((getAllTools groupDefs).map (fun t => t.name)) =
      (groupDefs.map (fun defs => List.count name (defs.map (fun t => t.name)))).sum := by
  simp only [getAllTools, List.map_flatten, List.count_flatten, List.map_map]
  rfl

/-- C4 counterexample: two groups both claiming the name "x" aggregate into a
catalog that contains "x" twice - construction succeeds instead of failing
with a duplicate-name error, refuting the claimed invariant that the catalog
never holds two entries with the same name. -/
theorem C4_counterexample :
    (getAllTools [[dupToolA], [dupToolB]]).map (fun t => t.name) = ["x", "x"] ∧
    ¬ ((getAllTools [[dupToolA], [dupToolB]]).map (fun t => t.name)).Nodup := by
  exact ⟨rfl, by decide⟩

/-- C5 (corrected): the describe-one route returns, for a present name, the
first catalog entry with that name, a single example whose argument set is
empty, an empty related-tools list, and `getToolCategory`'s label; for an
absent name it fails with a not-found error.  The required-field heuristic
and the related-tool search the claim describes are not performed by the
route. -/
theorem C5_describe_tool_route (allTools : List ToolDefinition) (toolName : String) :
    ((∃ t ∈ allTools, t.name = toolName) →
      ∃ tool ∈ allTools, tool.name = toolName ∧
        describeToolRoute allTools toolName =
          .ok ⟨tool, [⟨tool.name, []⟩], [], getToolCategory toolName⟩) ∧
    ((∀ t ∈ allTools, t.name ≠ toolName) →
      describeToolRoute allTools toolName =
        .error ("Tool \x27" ++ toolName ++ "\x27 not found")) := by
  constructor
  · intro hex
    have hsome : (allTools.find? (fun t => t.name == toolName)).isSome := by
      rw [List.find?_isSome]
      obtain ⟨t, ht, hn⟩ := hex
      exact ⟨t, ht, by simp [hn]⟩
    obtain ⟨tool, hf⟩ := Option.isSome_iff_exists.mp hsome
    have hpt := List.find?_some hf
    refine ⟨tool, List.mem_of_find?_eq_some hf, beq_iff_eq.mp hpt, ?_⟩
    simp only [describeToolRoute, hf]
  · intro hall
    have hnone : allTools.find? (fun t => t.name == toolName) = none := by
      rw [List.find?_eq_none]
      intro t ht
      simp [hall t ht]
    simp only [describeToolRoute, hnone]

/-- C5 witness: describing "update_contact" in the concrete two-tool catalog,
and the not-found branch for an absent name. -/
theorem C5_describe_tool_route_witness :
    (∃ tool ∈ smallCatalog, tool.name = "update_contact" ∧
      describeToolRoute smallCatalog "update_contact" =
        .ok ⟨tool, [⟨tool.name, []⟩], [], getToolCategory "update_contact"⟩) ∧
    describeToolRoute smallCatalog "missing_tool" =
      .error ("Tool \x27missing_tool\x27 not found") :=
  ⟨(C5_describe_tool_route smallCatalog "update_contact").1
      ⟨updateContactTool, by decide, rfl⟩,
   (C5_describe_tool_route smallCatalog "missing_tool").2 (by decide)⟩

/-- C5 counterexample: the claim is false for the served route - describing
"create_contact", whose schema requires an "email"-named field and which has
a related tool sharing the "contact" entity keyword, yields an example with
EMPTY arguments (not the email-shaped literal the claimed heuristic - present
in the source as `generateExampleArgs` but never invoked - would produce) and
an empty related-tools list. -/
theorem C5_counterexample :
    describeToolRoute smallCatalog "create_contact" =
      .ok ⟨createContactTool, [⟨"create_contact", []⟩], [], "Contact Management"⟩ ∧
    generateExampleArgs createContactTool = [("email", "user@example.com")] ∧
    updateContactTool ∈ smallCatalog ∧ updateContactTool.name ≠ "create_contact" ∧
    strContains (jsToLower updateContactTool.name) "contact" = true :=
  ⟨rfl, rfl, by decide, by decide, rfl⟩

/-- C6 (confirmed): the classifier equals its specification - lower-case the
name, then test the cue substring sets in the fixed priority order Contact,
Messaging, Sales, Calendar, Payments, Marketing, Operations, Custom Objects,
with "Other" as fallback; the first matching label wins. -/
theorem C6_classifier_fixed_priority :
    ∀ name, categoryOf name = specCategoryOf name := by
  intro name
  simp only [categoryOf, specCategoryOf, specCategoryRules, firstMatchingLabel,
    List.any_cons, List.any_nil, Bool.or_false, Bool.or_assoc]

/-- C7 (confirmed): classification is total and unambiguous - every input
tool's name appears in exactly one output category - and every output
category has a lexicographically sorted, nonempty member list (empty
categories are omitted). -/
theorem C7_classification_partition_sorted (tools : List ToolDefinition) :
    (∀ t ∈ tools, ∃! c, c ∈ categorizeTools tools ∧ t.name ∈ c.tools) ∧
    (∀ c ∈ categorizeTools tools, c.tools.Sorted (fun a b => a ≤ b)) ∧
    (∀ c ∈ categorizeTools tools, c.tools ≠ []) := by
  refine ⟨?_, ?_, ?_⟩
  · intro t ht
    have hmem : t.name ∈ bucketNames tools (categoryOf t.name) :=
      mem_bucketNames.mpr ⟨t, ht, rfl, rfl⟩
    have hne : bucketNames tools (categoryOf t.name) ≠ [] := by
      intro h
      rw [h] at hmem
      exact absurd hmem (List.not_mem_nil _)
    refine ⟨⟨categoryOf t.name, (bucketNames tools (categoryOf t.name)).length,
        sortStrings (bucketNames tools (categoryOf t.name))⟩, ⟨?_, ?_⟩, ?_⟩
    · exact mem_categorizeTools.mpr
        ⟨categoryOf t.name, categoryOf_mem_labels _, hne, rfl⟩
    · exact mem_sortStrings.mpr hmem
    · rintro c' ⟨hc', hnc'⟩
      obtain ⟨label, hl, hlne, rfl⟩ := mem_categorizeTools.mp hc'
      have hb : t.name ∈ bucketNames tools label := mem_sortStrings.mp hnc'
      obtain ⟨t', ht', hcat, heq⟩ := mem_bucketNames.mp hb
      have hlabel : label = categoryOf t.name := by
        rw [← hcat, heq]
      subst hlabel
      rfl
  · intro c hc
    obtain ⟨label, hl, hlne, rfl⟩ := mem_categorizeTools.mp hc
    exact sortStrings_sorted _
  · intro c hc
    obtain ⟨label, hl, hlne, rfl⟩ := mem_categorizeTools.mp hc
    exact sortStrings_ne_nil hlne

/-- C7 witness: the concrete one-tool catalog. -/
theorem C7_classification_partition_sorted_witness :
    (∃! c, c ∈ categorizeTools [createContactTool] ∧
      createContactTool.name ∈ c.tools) ∧
    (∀ c ∈ categorizeTools [createContactTool],
      c.tools.Sorted (fun a b => a ≤ b) ∧ c.tools ≠ []) := by
  refine ⟨(C7_classification_partition_sorted [createContactTool]).1
      createContactTool (by simp), ?_⟩
  intro c hc
  exact ⟨(C7_classification_partition_sorted [createContactTool]).2.1 c hc,
    (C7_classification_partition_sorted [createContactTool]).2.2 c hc⟩

/-- C8 (confirmed): an invocation without arguments behaves exactly as one
with the empty mapping (the handler always receives a concrete mapping,
`defaultArgs none = []`), and on success both transports wrap the returned
JSON value verbatim in the envelope
content = [ (type "text", JSON-serialized payload) ], the serialization being
the deterministic `jsonStringify`, which keeps a mapping payload's own key
order. -/
theorem C8_args_default_and_envelope (exec : ExecBehavior) (name : String) :
    defaultArgs none = ([] : JSObj) ∧
    httpDispatch exec name none = httpDispatch exec name (some []) ∧
    stdioDispatch exec name none = stdioDispatch exec name (some []) ∧
    (∀ g args r, httpGroupOf name = some g →
      exec g name (defaultArgs args) = .ok r →
      httpDispatch exec name args = .ok ⟨[⟨"text", jsonStringify r⟩]⟩) ∧
    (∀ g args r, stdioGroupOf name = some g →
      exec g name (defaultArgs args) = .ok r →
      stdioDispatch exec name args = .ok ⟨[⟨"text", jsonStringify r⟩]⟩) := by
  refine ⟨rfl, rfl, rfl, ?_, ?_⟩
  · intro g args r hg hx
    simp [httpDispatch, hg, hx]
  · intro g args r hg hx
    simp [stdioDispatch, hg, hx]

/-- C8 witness: the contact tool "create_contact" with a behaviour returning
the string "ok", invoked without arguments, on both transports. -/
theorem C8_args_default_and_envelope_witness :
    httpDispatch okExec "create_contact" none =
      httpDispatch okExec "create_contact" (some []) ∧
    httpDispatch okExec "create_contact" none =
      .ok ⟨[⟨"text", jsonStringify (JSVal.str "ok")⟩]⟩ ∧
    stdioDispatch okExec "create_contact" none =
      .ok ⟨[⟨"text", jsonStringify (JSVal.str "ok")⟩]⟩ := by
  refine ⟨(C8_args_default_and_envelope okExec "create_contact").2.1, ?_, ?_⟩
  · exact (C8_args_default_and_envelope okExec "create_contact").2.2.2.1
      GroupId.contact none (JSVal.str "ok") (by rfl) (by rfl)
  · exact (C8_args_default_and_envelope okExec "create_contact").2.2.2.2
      GroupId.contact none (JSVal.str "ok") (by rfl) (by rfl)

/-- C9 (confirmed for catalogs with duplicate-free names, which the spec
guarantees): describing the name of the i-th listed tool returns exactly that
ToolDefinition, so a second describe through the returned tool's name yields
the same response - the discovery operations round-trip. -/
theorem C9_describe_list_roundtrip (allTools : List ToolDefinition)
    (h : (allTools.map (fun t => t.name)).Nodup)
    (i : Nat) (hi : i < allTools.length) :
    ∃ r, describeToolRoute allTools allTools[i].name = .ok r ∧
      r.tool = allTools[i] ∧
      describeToolRoute allTools r.tool.name =
        describeToolRoute allTools allTools[i].name := by
  have hf := find?_name_get h i hi
  refine ⟨⟨allTools[i], [⟨allTools[i].name, []⟩], [],
      getToolCategory allTools[i].name⟩, ?_, rfl, rfl⟩
  simp only [describeToolRoute, hf]

/-- C9 witness: index 1 of the concrete two-tool catalog. -/
theorem C9_describe_list_roundtrip_witness :
    ∃ r, describeToolRoute smallCatalog updateContactTool.name = .ok r ∧
      r.tool = updateContactTool ∧
      describeToolRoute smallCatalog r.tool.name =
        describeToolRoute smallCatalog updateContactTool.name := by
  have hx := C9_describe_list_roundtrip smallCatalog (by decide) 1 (by decide)
  exact hx

/-- C10 (confirmed): the stdio and HTTP entry points route identically -
each of the 19 per-group static membership lists is the same in server.ts
and http-server.ts, and the two routing chains are equal as functions, so a
name is routable on one transport exactly when it is routable on the other,
and to the same capability group. -/
theorem C10_transport_routing_equal :
    httpContactToolNames = stdioContactToolNames ∧
    httpConversationToolNames = stdioConversationToolNames ∧
    httpBlogToolNames = stdioBlogToolNames ∧
    httpOpportunityToolNames = stdioOpportunityToolNames ∧
    httpCalendarToolNames = stdioCalendarToolNames ∧
    httpEmailToolNames = stdioEmailToolNames ∧
    httpLocationToolNames = stdioLocationToolNames ∧
    httpEmailISVToolNames = stdioEmailISVToolNames ∧
    httpSocialMediaToolNames = stdioSocialMediaToolNames ∧
    httpMediaToolNames = stdioMediaToolNames ∧
    httpObjectToolNames = stdioObjectToolNames ∧
    httpAssociationToolNames = stdioAssociationToolNames ∧
    httpCustomFieldV2ToolNames = stdioCustomFieldV2ToolNames ∧
    httpWorkflowToolNames = stdioWorkflowToolNames ∧
    httpSurveyToolNames = stdioSurveyToolNames ∧
    httpStoreToolNames = stdioStoreToolNames ∧
    httpProductsToolNames = stdioProductsToolNames ∧
    httpPaymentsToolNames = stdioPaymentsToolNames ∧
    httpInvoicesToolNames = stdioInvoicesToolNames ∧
    (∀ n, httpGroupOf n = stdioGroupOf n) :=
  ⟨rfl, rfl, rfl, rfl, rfl, rfl, rfl, rfl, rfl, rfl, rfl, rfl, rfl, rfl, rfl,
   rfl, rfl, rfl, rfl, groupOf_agree⟩

end GHLMCP
